import Mathlib

/-!
Shallow embedding of the w3g-parser replay decoder (Rust) in Lean 4,
with theorems checking the natural-language specification against the code.

Bytes are modelled as `Nat` (values < 256 in every reachable use), byte
buffers as `List Nat`, `u16`/`u32` little-endian reads as explicit
arithmetic, fallible code as `Except ParserError`, and the two pull-based
iterators (`TimeFrameIterator`, `ActionIterator`) as step functions over
explicit state records together with fuel-bounded run functions.  IEEE-754
`f32` fields are kept as their little-endian 32-bit patterns (`Nat`), since
`f32::from_le_bytes` is a bijection on bit patterns and no verified claim
depends on float semantics.  Fuel parameters only bound iteration counts;
every wrapper supplies fuel that provably exceeds the number of loop steps
(each loop step consumes at least one byte or advances the scan index), so
the fuel-exhaustion branches are unreachable for the supplied fuel.
-/

namespace W3G

/-- Little-endian `u16` from two bytes (`u16::from_le_bytes`). -/
def u16le (b0 b1 : Nat) : Nat := b0 + b1 * 256

/-- Little-endian `u32` from four bytes (`u32::from_le_bytes`). -/
def u32le (b0 b1 b2 b3 : Nat) : Nat :=
  b0 + b1 * 256 + b2 * 65536 + b3 * 16777216

/-- `u32::saturating_add` on values already bounded by `u32::MAX`. -/
def satAdd32 (a b : Nat) : Nat := min (a + b) 4294967295

/-- The slice `l[a..b]` of a byte buffer. -/
def listSlice (l : List Nat) (a b : Nat) : List Nat := (l.drop a).take (b - a)

/-- Uppercase hex digit, for mirroring Rust format strings. -/
def hexDigit (n : Nat) : Char :=
  if n < 10 then Char.ofNat (48 + n) else Char.ofNat (55 + n)

/-- Rust format specifier 02X applied to a byte value. -/
def hex2 (n : Nat) : String := String.mk [hexDigit (n / 16 % 16), hexDigit (n % 16)]

/-- Error taxonomy of `src/error.rs` (`ParserError`).  The five variants are
`IoError`, `InvalidMagic`, `InvalidHeader`, `DecompressionError` and
`UnexpectedEof`; there is no UTF-8-specific variant. -/
inductive ParserError where
  | ioError (msg : String)
  | invalidMagic (expected found : String)
  | invalidHeader (reason : String)
  | decompressionError (reason : String)
  | unexpectedEof (expected available : Nat)
deriving DecidableEq

/-- `binary.rs::read_u16_le`. -/
def read_u16_le (bytes : List Nat) (offset : Nat) : Except ParserError Nat :=
  if offset + 2 > bytes.length then
    .error (.unexpectedEof (offset + 2) bytes.length)
  else
    .ok (u16le (bytes.getD offset 0) (bytes.getD (offset + 1) 0))

/-- `binary.rs::read_u32_le`. -/
def read_u32_le (bytes : List Nat) (offset : Nat) : Except ParserError Nat :=
  if offset + 4 > bytes.length then
    .error (.unexpectedEof (offset + 4) bytes.length)
  else
    .ok (u32le (bytes.getD offset 0) (bytes.getD (offset + 1) 0)
      (bytes.getD (offset + 2) 0) (bytes.getD (offset + 3) 0))

/-- `binary.rs::read_bytes`. -/
def read_bytes (bytes : List Nat) (offset len : Nat) : Except ParserError (List Nat) :=
  if offset + len > bytes.length then
    .error (.unexpectedEof (offset + len) bytes.length)
  else
    .ok (listSlice bytes offset (offset + len))

/-!
UTF-8 model.  `String::from_utf8` / `String::from_utf8_lossy` follow the
byte-level validation of `core::str` (U+FFFD substitution of maximal
subparts).  `utf8SeqSplit` classifies the sequence starting at the head
byte: a complete valid sequence, an invalid maximal subpart (the bytes to
skip), or an incomplete sequence at the end of input.
-/

/-- One classified step of UTF-8 validation. -/
inductive Utf8Chunk where
  | valid (seq rest : List Nat)
  | invalid (skip rest : List Nat)
  | incomplete
deriving DecidableEq

/-- Lower bound for the first continuation byte (0xE0 and 0xF0 restrict it). -/
def utf8Next1Lo (b : Nat) : Nat :=
  if b = 0xE0 then 0xA0 else if b = 0xF0 then 0x90 else 0x80

/-- Upper bound for the first continuation byte (0xED and 0xF4 restrict it). -/
def utf8Next1Hi (b : Nat) : Nat :=
  if b = 0xED then 0x9F else if b = 0xF4 then 0x8F else 0xBF

/-- Split off the UTF-8 sequence starting at byte `b` with remaining input
`rest`, per the `core::str` validation table. -/
def utf8SeqSplit (b : Nat) (rest : List Nat) : Utf8Chunk :=
  if b < 0x80 then .valid [b] rest
  else if 0xC2 ≤ b ∧ b ≤ 0xDF then
    match rest with
    | [] => .incomplete
    | c1 :: r1 =>
      if utf8Next1Lo b ≤ c1 ∧ c1 ≤ utf8Next1Hi b then .valid [b, c1] r1
      else .invalid [b] (c1 :: r1)
  else if 0xE0 ≤ b ∧ b ≤ 0xEF then
    match rest with
    | [] => .incomplete
    | c1 :: r1 =>
      if utf8Next1Lo b ≤ c1 ∧ c1 ≤ utf8Next1Hi b then
        match r1 with
        | [] => .incomplete
        | c2 :: r2 =>
          if 0x80 ≤ c2 ∧ c2 ≤ 0xBF then .valid [b, c1, c2] r2
          else .invalid [b, c1] (c2 :: r2)
      else .invalid [b] (c1 :: r1)
  else if 0xF0 ≤ b ∧ b ≤ 0xF4 then
    match rest with
    | [] => .incomplete
    | c1 :: r1 =>
      if utf8Next1Lo b ≤ c1 ∧ c1 ≤ utf8Next1Hi b then
        match r1 with
        | [] => .incomplete
        | c2 :: r2 =>
          if 0x80 ≤ c2 ∧ c2 ≤ 0xBF then
            match r2 with
            | [] => .incomplete
            | c3 :: r3 =>
              if 0x80 ≤ c3 ∧ c3 ≤ 0xBF then .valid [b, c1, c2, c3] r3
              else .invalid [b, c1, c2] (c3 :: r3)
          else .invalid [b, c1] (c2 :: r2)
      else .invalid [b] (c1 :: r1)
  else .invalid [b] rest

/-- Fuel-bounded body of `String::from_utf8_lossy`, producing the UTF-8
bytes of the resulting string (each invalid or incomplete maximal subpart
becomes one U+FFFD, bytes `EF BF BD`). -/
def utf8LossyAux : Nat → List Nat → List Nat
  | _, [] => []
  | 0, _ :: _ => []
  | fuel + 1, b :: rest =>
    match utf8SeqSplit b rest with
    | .valid seq rest2 => seq ++ utf8LossyAux fuel rest2
    | .invalid _ rest2 => [0xEF, 0xBF, 0xBD] ++ utf8LossyAux fuel rest2
    | .incomplete => [0xEF, 0xBF, 0xBD]

/-- `String::from_utf8_lossy`, as the byte list of the resulting string.
Each step consumes at least one input byte, so `l.length` fuel suffices. -/
def utf8Lossy (l : List Nat) : List Nat := utf8LossyAux l.length l

/-- Fuel-bounded body of `str::from_utf8` validation: `none` when valid,
otherwise `some (valid_up_to, error_len)` as in `Utf8Error`. -/
def utf8ValidateFromAux : Nat → Nat → List Nat → Option (Nat × Option Nat)
  | _, _, [] => none
  | 0, pos, _ :: _ => some (pos, none)
  | fuel + 1, pos, b :: rest =>
    match utf8SeqSplit b rest with
    | .valid seq rest2 => utf8ValidateFromAux fuel (pos + seq.length) rest2
    | .invalid skip _ => some (pos, some skip.length)
    | .incomplete => some (pos, none)

/-- `str::from_utf8` validation outcome for a whole buffer. -/
def utf8Validate (l : List Nat) : Option (Nat × Option Nat) :=
  utf8ValidateFromAux l.length 0 l

/-- Whether a byte list is valid UTF-8. -/
def validUtf8 (l : List Nat) : Bool := (utf8Validate l).isNone

/-- Display of Rust `Utf8Error`, used inside `InvalidHeader` reasons. -/
def utf8ErrorString : Nat × Option Nat → String
  | (i, some n) =>
    "invalid utf-8 sequence of " ++ toString n ++ " bytes from index " ++ toString i
  | (i, none) => "incomplete utf-8 byte sequence from index " ++ toString i

/-- The scan window of `binary.rs::read_string`: at most `maxLen` bytes
starting at `offset`, clipped to the end of the buffer. -/
def readStringSearchSlice (bytes : List Nat) (offset maxLen : Nat) : List Nat :=
  let e := min (offset + maxLen) bytes.length
  (bytes.drop offset).take (e - offset)

/-- The bytes selected by `read_string`: the scan window up to (excluding)
the first NUL, or the whole window when no NUL occurs. -/
def readStringScan (bytes : List Nat) (offset maxLen : Nat) : List Nat :=
  let searchSlice := readStringSearchSlice bytes offset maxLen
  let stringLen := (searchSlice.findIdx? (fun b => b == 0)).getD searchSlice.length
  searchSlice.take stringLen

/-- `binary.rs::read_string`, returning the UTF-8 bytes of the string. -/
def read_string (bytes : List Nat) (offset maxLen : Nat) : Except ParserError (List Nat) :=
  if offset ≥ bytes.length then .error (.unexpectedEof (offset + 1) bytes.length)
  else
    let stringBytes := readStringScan bytes offset maxLen
    match utf8Validate stringBytes with
    | none => .ok stringBytes
    | some err =>
      .error (.invalidHeader
        ("Invalid UTF-8 string at offset " ++ toString offset ++ ": " ++ utf8ErrorString err))

/-- The bytes selected by `read_fixed_string`: the fixed slice up to
(excluding) the first NUL byte. -/
def readFixedStringScan (bytes : List Nat) (offset len : Nat) : List Nat :=
  let slice := listSlice bytes offset (offset + len)
  slice.take ((slice.findIdx? (fun b => b == 0)).getD len)

/-- `binary.rs::read_fixed_string`, returning the UTF-8 bytes of the string. -/
def read_fixed_string (bytes : List Nat) (offset len : Nat) : Except ParserError (List Nat) :=
  match read_bytes bytes offset len with
  | .error e => .error e
  | .ok slice =>
    let stringBytes := slice.take ((slice.findIdx? (fun b => b == 0)).getD len)
    match utf8Validate stringBytes with
    | none => .ok stringBytes
    | some err =>
      .error (.invalidHeader
        ("Invalid UTF-8 string at offset " ++ toString offset ++ ": " ++ utf8ErrorString err))

/-!
Action data model (`src/actions/types.rs` and the per-family modules).
-/

/-- `ability.rs::AbilityCode`: a FourCC stored in reversed byte order.
The Rust tuple struct holds `[u8; 4]`; here a 4-element byte list. -/
structure AbilityCode where
  raw : List Nat
deriving DecidableEq

/-- `AbilityCode::from_raw`. -/
def AbilityCode.fromRaw (bytes : List Nat) : AbilityCode := ⟨bytes⟩

/-- `AbilityCode::raw_bytes`. -/
def AbilityCode.rawBytes (c : AbilityCode) : List Nat := c.raw

/-- `AbilityCode::as_string`: the byte-reversed raw bytes decoded with
`String::from_utf8_lossy`, given as the UTF-8 bytes of the result. -/
def AbilityCode.asStringBytes (c : AbilityCode) : List Nat :=
  utf8Lossy [c.raw.getD 3 0, c.raw.getD 2 0, c.raw.getD 1 0, c.raw.getD 0 0]

/-- `selection.rs::SelectionAction`. -/
structure SelectionAction where
  unit_count : Nat
  mode : Nat
  flags : Nat
  unit_ids : List Nat
deriving DecidableEq

/-- `ability.rs::AbilityAction` (direct ability, `0x1A 0x19`). -/
structure AbilityAction where
  ability_code : AbilityCode
  target_unit : Option Nat
deriving DecidableEq

/-- `ability.rs::AbilityWithSelectionAction` (`0x1A 0x00`). -/
structure AbilityWithSelectionAction where
  selection : SelectionAction
  ability : AbilityAction
deriving DecidableEq

/-- `ability.rs::InstantAbilityAction` (`0x0F 0x00`). -/
structure InstantAbilityAction where
  flags : Nat
  unknown : Nat
  ability_code : AbilityCode
  has_target : Bool
  target_unit : Option Nat
deriving DecidableEq

/-- `movement.rs::MovementType`. -/
inductive MovementType where
  | move
  | attackMove
  | patrol
  | holdPosition
  | smartClick
  | unknown (n : Nat)
deriving DecidableEq

/-- `MovementType::from_subcommand`. -/
def MovementType.fromSubcommand (sub : Nat) : MovementType :=
  if sub = 0x0D then .move
  else if sub = 0x0E then .attackMove
  else if sub = 0x0F then .patrol
  else if sub = 0x10 then .holdPosition
  else if sub = 0x12 then .smartClick
  else .unknown sub

/-- `movement.rs::MovementAction`; `x`/`y` are kept as their little-endian
`f32` bit patterns. -/
structure MovementAction where
  movement_type : MovementType
  flags : Nat
  target_unit : Option Nat
  xBits : Nat
  yBits : Nat
  extra_data : List Nat
deriving DecidableEq

/-- `hotkey.rs::HotkeyOperation`. -/
inductive HotkeyOperation where
  | assign
  | select
  | addToGroup
  | unknown (n : Nat)
deriving DecidableEq

/-- `hotkey.rs::HotkeyAction`. -/
structure HotkeyAction where
  group : Nat
  operation : HotkeyOperation
deriving DecidableEq

/-- `types.rs::ActionType`.  Every `f32` field is kept as its little-endian
bit pattern, and every `[u8; 4]` as a byte list. -/
inductive ActionType where
  | selection (s : SelectionAction)
  | ability (a : AbilityAction)
  | abilityWithSelection (a : AbilityWithSelectionAction)
  | instantAbility (a : InstantAbilityAction)
  | movement (m : MovementAction)
  | hotkey (h : HotkeyAction)
  | escapeKey
  | itemAction (item_id : Nat)
  | basicCommand (command_id : Nat)
  | buildTrain (unit_code : List Nat)
  | unitAbilityNoTarget (flags : Nat) (ability_code : List Nat)
  | unitAbilityGroundTarget (flags : Nat) (ability_code : List Nat) (xBits yBits : Nat)
  | unitAbilityUnitTarget (flags : Nat) (ability_code : List Nat)
      (target_unit : Nat) (xBits yBits : Nat)
  | giveDropItem (flags : Nat) (item_code : List Nat) (target_unit : Nat) (xBits yBits : Nat)
  | unitAbilityTwoTargets (flags : Nat) (ability_code : List Nat) (x1 y1 x2 y2 : Nat)
  | selectSubgroup (item object_id1 object_id2 : Nat)
  | removeFromQueue (slot unit_id : Nat)
  | changeAllyOptions (slot flags : Nat)
  | transferResources (slot gold lumber : Nat)
  | minimapPing (xBits yBits unknown : Nat)
  | battleNetSync (marker : Nat) (data : List Nat)
  | unknown (type_id : Nat) (subcommand : Option Nat) (data : List Nat)
deriving DecidableEq

/-- `types.rs::Action`. -/
structure Action where
  player_id : Nat
  action_type : ActionType
  timestamp_ms : Nat
deriving DecidableEq

/-- `selection.rs::extract_unit_ids`: the first 4 bytes of each complete
8-byte block become one little-endian unit id (a loop with conditional
push, i.e. a filterMap over the block indices). -/
def extractUnitIds (data : List Nat) (count : Nat) : List Nat :=
  (List.range count).filterMap (fun i =>
    if i * 8 + 4 ≤ data.length then
      some (u32le (data.getD (i * 8) 0) (data.getD (i * 8 + 1) 0)
        (data.getD (i * 8 + 2) 0) (data.getD (i * 8 + 3) 0))
    else none)

/-- `SelectionAction::parse`. -/
def SelectionAction.parse (data : List Nat) : Except ParserError (SelectionAction × Nat) :=
  if data.length = 0 then .error (.unexpectedEof 1 0)
  else if data.getD 0 0 ≠ 0x16 then
    .error (.invalidHeader ("Invalid selection marker: expected 0x" ++ hex2 0x16 ++
      ", found 0x" ++ hex2 (data.getD 0 0)))
  else if data.length < 4 then .error (.unexpectedEof 4 data.length)
  else
    let unit_count := data.getD 1 0
    let mode := data.getD 2 0
    let flags := data.getD 3 0
    let expected_size := 4 + unit_count * 8
    if data.length < expected_size then .error (.unexpectedEof expected_size data.length)
    else
      .ok (⟨unit_count, mode, flags, extractUnitIds (data.drop 4) unit_count⟩, expected_size)

/-- `HotkeyAction::parse`. -/
def HotkeyAction.parse (data : List Nat) : Except ParserError (HotkeyAction × Nat) :=
  if data.length < 3 then .error (.unexpectedEof 3 data.length)
  else if data.getD 0 0 ≠ 0x17 then
    .error (.invalidHeader ("Invalid hotkey marker: expected 0x" ++ hex2 0x17 ++
      ", found 0x" ++ hex2 (data.getD 0 0)))
  else
    let operation : HotkeyOperation :=
      if data.getD 2 0 = 0 then .assign
      else if data.getD 2 0 = 1 then .select
      else if data.getD 2 0 = 2 then .addToGroup
      else .unknown (data.getD 2 0)
    .ok (⟨data.getD 1 0, operation⟩, 3)

/-- `AbilityAction::from_raw`. -/
def AbilityAction.fromRaw (ability_code : List Nat) (target_unit : Option Nat) :
    AbilityAction :=
  ⟨AbilityCode.fromRaw ability_code, target_unit⟩

/-- `AbilityAction::parse` (direct ability, fixed size 14 from the `0x1A`
marker on; all-`0xFF` target bytes mean no target). -/
def AbilityAction.parse (data : List Nat) : Except ParserError (AbilityAction × Nat) :=
  if data.length < 14 then .error (.unexpectedEof 14 data.length)
  else if data.getD 0 0 ≠ 0x1A ∨ data.getD 1 0 ≠ 0x19 then
    .error (.invalidHeader ("Invalid ability markers: expected 0x" ++ hex2 0x1A ++
      " 0x" ++ hex2 0x19 ++ ", found 0x" ++ hex2 (data.getD 0 0) ++
      " 0x" ++ hex2 (data.getD 1 0)))
  else
    let ability_code := AbilityCode.fromRaw
      [data.getD 2 0, data.getD 3 0, data.getD 4 0, data.getD 5 0]
    let target_bytes := listSlice data 6 14
    let target_unit :=
      if target_bytes.all (fun b => b == 0xFF) then none
      else some (u32le (data.getD 6 0) (data.getD 7 0) (data.getD 8 0) (data.getD 9 0))
    .ok (⟨ability_code, target_unit⟩, 14)

/-- `InstantAbilityAction::parse` (fixed size 18 from the `0x0F` marker on). -/
def InstantAbilityAction.parse (data : List Nat) :
    Except ParserError (InstantAbilityAction × Nat) :=
  if data.length < 18 then .error (.unexpectedEof 18 data.length)
  else if data.getD 0 0 ≠ 0x0F ∨ data.getD 1 0 ≠ 0x00 then
    .error (.invalidHeader ("Invalid instant ability markers: expected 0x" ++ hex2 0x0F ++
      " 0x" ++ hex2 0x00 ++ ", found 0x" ++ hex2 (data.getD 0 0) ++
      " 0x" ++ hex2 (data.getD 1 0)))
  else
    let flags := u16le (data.getD 2 0) (data.getD 3 0)
    let unknown := u16le (data.getD 4 0) (data.getD 5 0)
    let ability_code := AbilityCode.fromRaw
      [data.getD 6 0, data.getD 7 0, data.getD 8 0, data.getD 9 0]
    let target_bytes := listSlice data 10 18
    let has_target := ¬ target_bytes.all (fun b => b == 0xFF)
    let target_unit :=
      if has_target then
        some (u32le (data.getD 10 0) (data.getD 11 0) (data.getD 12 0) (data.getD 13 0))
      else none
    .ok (⟨flags, unknown, ability_code, has_target, target_unit⟩, 18)

/-- `MovementAction::parse_with_subcommand` (fixed size 28 from the `0x00`
marker on). -/
def MovementAction.parseWithSubcommand (data : List Nat) (expectedSubcommand : Nat) :
    Except ParserError (MovementAction × Nat) :=
  if data.length < 28 then .error (.unexpectedEof 28 data.length)
  else if data.getD 0 0 ≠ 0x00 ∨ data.getD 1 0 ≠ expectedSubcommand then
    .error (.invalidHeader ("Invalid movement markers: expected 0x" ++ hex2 0x00 ++
      " 0x" ++ hex2 expectedSubcommand ++ ", found 0x" ++ hex2 (data.getD 0 0) ++
      " 0x" ++ hex2 (data.getD 1 0)))
  else
    let movement_type := MovementType.fromSubcommand (data.getD 1 0)
    let flags := u16le (data.getD 2 0) (data.getD 3 0)
    let target_bytes := listSlice data 4 12
    let target_unit :=
      if target_bytes.all (fun b => b == 0xFF) then none
      else some (u32le (data.getD 4 0) (data.getD 5 0) (data.getD 6 0) (data.getD 7 0))
    let xBits := u32le (data.getD 12 0) (data.getD 13 0) (data.getD 14 0) (data.getD 15 0)
    let yBits := u32le (data.getD 16 0) (data.getD 17 0) (data.getD 18 0) (data.getD 19 0)
    .ok (⟨movement_type, flags, target_unit, xBits, yBits, listSlice data 20 28⟩, 28)

/-- `AbilityWithSelectionAction::parse` (`0x1A 0x00`, nested selection then
a direct ability; 14 is `AbilityAction::SIZE`). -/
def AbilityWithSelectionAction.parse (data : List Nat) :
    Except ParserError (AbilityWithSelectionAction × Nat) :=
  if data.length < 3 then .error (.unexpectedEof 3 data.length)
  else if data.getD 0 0 ≠ 0x1A ∨ data.getD 1 0 ≠ 0x00 then
    .error (.invalidHeader ("Invalid ability with selection markers: expected 0x" ++
      hex2 0x1A ++ " 0x" ++ hex2 0x00 ++ ", found 0x" ++ hex2 (data.getD 0 0) ++
      " 0x" ++ hex2 (data.getD 1 0)))
  else if data.length < 3 ∨ data.getD 2 0 ≠ 0x16 then
    .error (.invalidHeader ("Expected selection marker 0x16 after 0x1A 0x00, found 0x" ++
      hex2 ((data.get? 2).getD 0)))
  else
    match SelectionAction.parse (data.drop 2) with
    | .error e => .error e
    | .ok (selection, sel_consumed) =>
      let ability_offset := 2 + sel_consumed
      if data.length < ability_offset + 14 then
        .error (.unexpectedEof (ability_offset + 14) data.length)
      else
        match AbilityAction.parse (data.drop ability_offset) with
        | .error e => .error e
        | .ok (ability, ab_consumed) =>
          .ok (⟨selection, ability⟩, ability_offset + ab_consumed)


/-!
Action dispatch (`src/actions/parser.rs`).
-/

/-- `parser.rs::is_known_action_type`: the recognized-action-type set used
for unknown-opcode boundary detection. -/
def knownActionTypes : List Nat :=
  [0x00, 0x03, 0x0C, 0x0F, 0x11, 0x15, 0x16, 0x17, 0x18, 0x19, 0x1A, 0x1B, 0x1C, 0x1D, 0x1E,
   0x26, 0x2E, 0x36, 0x3E, 0x46, 0x4E, 0x56, 0x5E,
   0x20, 0x24, 0x28, 0x2C, 0x30, 0x34, 0x38, 0x3C, 0x40, 0x44, 0x48, 0x4C,
   0x50, 0x51, 0x52, 0x54, 0x58, 0x5C, 0x60, 0x64, 0x68, 0x6C, 0x70, 0x74, 0x76, 0x78, 0x7C]

/-- Membership in the recognized-action-type set (the `matches!` of
`is_known_action_type`). -/
def isKnownActionType (b : Nat) : Bool := knownActionTypes.contains b

/-- Lookahead of the `parse_unknown_action` scan: whether the byte after
position `i` exists and is a recognized action type. -/
def nextByteIsKnownType (data : List Nat) (i : Nat) : Bool :=
  match data.get? (i + 1) with
  | some nextType => isKnownActionType nextType
  | none => false

/-- Scan loop of `parse_unknown_action`: from index `i`, find the first
position holding a byte in `1..=15` whose successor byte is a recognized
action type; `data.length` when none.  Fuel bounds the scan; the wrapper
supplies `data.length + 1`, which the strictly increasing index never
exhausts. -/
def unknownEndFromAux : Nat → List Nat → Nat → Nat
  | 0, _, i => i
  | fuel + 1, data, i =>
    if i < data.length then
      if (1 ≤ data.getD i 0 ∧ data.getD i 0 ≤ 15) ∧ nextByteIsKnownType data i = true then i
      else unknownEndFromAux fuel data (i + 1)
    else i

/-- `parser.rs::ActionIterator::parse_unknown_action`: consume up to the
next plausible action boundary as an `Unknown` action. -/
def parseUnknownAction (typeId : Nat) (subcommand : Option Nat) (data : List Nat) :
    ActionType × Nat :=
  let endOffset := unknownEndFromAux (data.length + 1) data 1
  (.unknown typeId subcommand (listSlice data 1 endOffset), endOffset)

/-- `parser.rs::ActionIterator::parse_action_type`: dispatch on
`(action_type, subcommand)` over `data` starting at the opcode byte,
returning the parsed kind and the bytes consumed from the opcode on.
The if-chain mirrors the source match arms in order (guard failures fall
through to later arms exactly as in a Rust match). -/
def parseActionType (t : Nat) (sub : Option Nat) (data : List Nat) :
    Except ParserError (ActionType × Nat) :=
  -- (0x01, Some(0x00)) with 0x67 at offset 2: Reforged marker, 3 bytes
  if t = 0x01 ∧ sub = some 0x00 ∧ 3 ≤ data.length ∧ data.get? 2 = some 0x67 then
    .ok (.basicCommand 0x01006700, 3)
  -- (0x01, Some(0x0D)): Reforged marker, 2 bytes
  else if t = 0x01 ∧ sub = some 0x0D then
    .ok (.basicCommand 0x01000D00, 2)
  -- (0x01, Some(0x00)) short form, 3 bytes
  else if t = 0x01 ∧ sub = some 0x00 ∧ 3 ≤ data.length then
    .ok (.basicCommand (0x01000000 ||| (data.get? 2).getD 0), 3)
  -- (0x0C, Some(0x00)): selection shortcut
  else if t = 0x0C ∧ sub = some 0x00 then
    if 3 ≤ data.length ∧ data.get? 2 = some 0x16 then
      match SelectionAction.parse (data.drop 2) with
      | .error e => .error e
      | .ok (sel, consumed) => .ok (.selection sel, 2 + consumed)
    else
      .ok (.basicCommand 0x0C000000, 2)
  -- (0x2C, Some(0x00)): movement wrapper, 24 bytes
  else if t = 0x2C ∧ sub = some 0x00 then
    if 24 ≤ data.length ∧ data.get? 2 = some 0x14 ∧ data.get? 3 = some 0x00 ∧
        data.get? 4 = some 0x00 ∧ data.get? 5 = some 0x03 ∧ data.get? 6 = some 0x00 ∧
        data.get? 7 = some 0x0D ∧ data.get? 8 = some 0x00 then
      -- reconstructed movement buffer, zero-padded to 28 bytes
      let movBuffer :=
        ([0x00, 0x0D, 0x00, 0x00] ++ listSlice data 9 17 ++ listSlice data 17 24) ++
          List.replicate 9 0
      match MovementAction.parseWithSubcommand movBuffer 0x0D with
      | .error e => .error e
      | .ok (mov, _) => .ok (.movement mov, 24)
    else
      .ok (parseUnknownAction t sub data)
  -- (0x00, None) or (0x00, Some(0x00)) with at most 2 bytes: keepalive
  else if t = 0x00 ∧ (sub = none ∨ sub = some 0x00) ∧ data.length ≤ 2 then
    .ok (.basicCommand 0x00000000, min data.length 2)
  -- (0x00, Some(0x0D | 0x0E | 0x0F | 0x10 | 0x12)): movement
  else if t = 0x00 ∧ (sub = some 0x0D ∨ sub = some 0x0E ∨ sub = some 0x0F ∨
      sub = some 0x10 ∨ sub = some 0x12) then
    match MovementAction.parseWithSubcommand data (sub.getD 0) with
    | .error e => .error e
    | .ok (mov, consumed) => .ok (.movement mov, consumed)
  -- (0x0F, Some(0x00)): instant ability
  else if t = 0x0F ∧ sub = some 0x00 then
    match InstantAbilityAction.parse data with
    | .error e => .error e
    | .ok (ab, consumed) => .ok (.instantAbility ab, consumed)
  -- (0x16, _): selection
  else if t = 0x16 then
    match SelectionAction.parse data with
    | .error e => .error e
    | .ok (sel, consumed) => .ok (.selection sel, consumed)
  -- (0x17, _): hotkey
  else if t = 0x17 then
    match HotkeyAction.parse data with
    | .error e => .error e
    | .ok (hk, consumed) => .ok (.hotkey hk, consumed)
  -- (0x1A, Some(0x00)): ability with selection
  else if t = 0x1A ∧ sub = some 0x00 then
    match AbilityWithSelectionAction.parse data with
    | .error e => .error e
    | .ok (ab, consumed) => .ok (.abilityWithSelection ab, consumed)
  -- (0x1A, Some(0x19)): direct ability
  else if t = 0x1A ∧ sub = some 0x19 then
    match AbilityAction.parse data with
    | .error e => .error e
    | .ok (ab, consumed) => .ok (.ability ab, consumed)
  -- (0x18, _): ESC, 1 byte
  else if t = 0x18 then
    .ok (.escapeKey, 1)
  -- (0x1B, _): item action, up to 14 bytes
  else if t = 0x1B then
    let consumed := min 14 data.length
    let item_id :=
      if 6 ≤ data.length then
        u32le (data.getD 2 0) (data.getD 3 0) (data.getD 4 0) (data.getD 5 0)
      else 0
    .ok (.itemAction item_id, consumed)
  -- (0x1C, _): basic command, up to 14 bytes
  else if t = 0x1C then
    let consumed := min 14 data.length
    let command_id :=
      if 6 ≤ data.length then
        u32le (data.getD 2 0) (data.getD 3 0) (data.getD 4 0) (data.getD 5 0)
      else 0
    .ok (.basicCommand command_id, consumed)
  -- (0x1D, _): build/train, up to 14 bytes
  else if t = 0x1D then
    let consumed := min 14 data.length
    let unit_code :=
      if 6 ≤ data.length then [data.getD 2 0, data.getD 3 0, data.getD 4 0, data.getD 5 0]
      else [0, 0, 0, 0]
    .ok (.buildTrain unit_code, consumed)
  -- (0x19, _): select subgroup, up to 13 bytes
  else if t = 0x19 then
    let consumed := min 13 data.length
    if 10 ≤ data.length then
      .ok (.selectSubgroup (data.getD 1 0)
        (u32le (data.getD 2 0) (data.getD 3 0) (data.getD 4 0) (data.getD 5 0))
        (u32le (data.getD 6 0) (data.getD 7 0) (data.getD 8 0) (data.getD 9 0)), consumed)
    else
      .ok (parseUnknownAction t sub data)
  -- (0x1E, _): remove from queue, 6 bytes
  else if t = 0x1E then
    let consumed := min 6 data.length
    if 6 ≤ data.length then
      .ok (.removeFromQueue (data.getD 1 0)
        (u32le (data.getD 2 0) (data.getD 3 0) (data.getD 4 0) (data.getD 5 0)), consumed)
    else
      .ok (parseUnknownAction t sub data)
  -- (0x50, _): change ally options, 6 bytes
  else if t = 0x50 then
    let consumed := min 6 data.length
    if 6 ≤ data.length then
      .ok (.changeAllyOptions (data.getD 1 0)
        (u32le (data.getD 2 0) (data.getD 3 0) (data.getD 4 0) (data.getD 5 0)), consumed)
    else
      .ok (parseUnknownAction t sub data)
  -- (0x51, _): transfer resources, 10 bytes
  else if t = 0x51 then
    let consumed := min 10 data.length
    if 10 ≤ data.length then
      .ok (.transferResources (data.getD 1 0)
        (u32le (data.getD 2 0) (data.getD 3 0) (data.getD 4 0) (data.getD 5 0))
        (u32le (data.getD 6 0) (data.getD 7 0) (data.getD 8 0) (data.getD 9 0)), consumed)
    else
      .ok (parseUnknownAction t sub data)
  -- (0x68, _): minimap ping, 13 bytes (x and y as f32 bit patterns)
  else if t = 0x68 then
    let consumed := min 13 data.length
    if 13 ≤ data.length then
      .ok (.minimapPing
        (u32le (data.getD 1 0) (data.getD 2 0) (data.getD 3 0) (data.getD 4 0))
        (u32le (data.getD 5 0) (data.getD 6 0) (data.getD 7 0) (data.getD 8 0))
        (u32le (data.getD 9 0) (data.getD 10 0) (data.getD 11 0) (data.getD 12 0)), consumed)
    else
      .ok (parseUnknownAction t sub data)
  -- (0x15, _): Battle.net sync, 24 bytes
  else if t = 0x15 then
    let consumed := min 24 data.length
    if 24 ≤ data.length then
      .ok (.battleNetSync (u16le (data.getD 1 0) (data.getD 2 0)) (listSlice data 4 24),
        consumed)
    else
      .ok (parseUnknownAction t sub data)
  -- (0x11, Some(0x00)): Reforged wrapped ability / sync, several forms
  else if t = 0x11 ∧ sub = some 0x00 ∧ data.get? 2 = some 0x18 ∧ 19 ≤ data.length ∧
      data.get? 5 = some 0x1A ∧ data.get? 6 = some 0x19 then
    let ability_code := [data.getD 7 0, data.getD 8 0, data.getD 9 0, data.getD 10 0]
    let target_unit :=
      if 15 ≤ data.length then
        some (u32le (data.getD 11 0) (data.getD 12 0) (data.getD 13 0) (data.getD 14 0))
      else none
    .ok (.ability (AbilityAction.fromRaw ability_code target_unit), 19)
  else if t = 0x11 ∧ sub = some 0x00 ∧ data.get? 2 = some 0x18 ∧ 4 ≤ data.length ∧
      data.get? 3 = some 0x00 then
    .ok (.basicCommand 0x11001800, 4)
  else if t = 0x11 ∧ sub = some 0x00 ∧ data.get? 2 = some 0x18 ∧ 3 ≤ data.length then
    .ok (.basicCommand 0x11001800, 3)
  else if t = 0x11 ∧ sub = some 0x00 ∧ data.get? 2 = some 0x7B then
    let consumed :=
      if 18 ≤ data.length then
        if 18 ≤ data.length ∧ (listSlice data 12 16).any
            (fun b => (65 ≤ b ∧ b ≤ 90) ∨ (97 ≤ b ∧ b ≤ 122)) then 18
        else if 14 ≤ data.length ∧ data.get? 11 = some 0x00 then 14
        else if 10 ≤ data.length then 10
        else if 8 ≤ data.length then 8
        else min 4 data.length
      else if 8 ≤ data.length then 8
      else min 4 data.length
    .ok (.battleNetSync 0x117B (listSlice data 3 consumed), consumed)
  else if t = 0x11 ∧ sub = some 0x00 then
    .ok (parseUnknownAction t sub data)
  -- (0x03, Some(0x00)): Reforged queue/repeat marker, 5 bytes
  else if t = 0x03 ∧ sub = some 0x00 then
    if 5 ≤ data.length ∧ data.get? 2 = some 0x18 ∧ data.get? 4 = some 0x03 then
      let counter := (data.get? 3).getD 0
      .ok (.basicCommand (0x03001803 ||| (counter <<< 24)), 5)
    else
      .ok (parseUnknownAction t sub data)
  -- (0x03, Some(0x1A)): classic wrapped ability, 12 bytes
  else if t = 0x03 ∧ sub = some 0x1A then
    if 12 ≤ data.length ∧ data.get? 2 = some 0x19 then
      let ability_code := [data.getD 3 0, data.getD 4 0, data.getD 5 0, data.getD 6 0]
      let target_unit :=
        if 11 ≤ data.length then
          some (u32le (data.getD 7 0) (data.getD 8 0) (data.getD 9 0) (data.getD 10 0))
        else none
      .ok (.ability (AbilityAction.fromRaw ability_code target_unit), 12)
    else
      .ok (parseUnknownAction t sub data)
  -- (0x26 | 0x36 | 0x46 | 0x56 | 0x2E | 0x3E | 0x4E | 0x5E, Some(0x00)):
  -- Reforged wrapped selection
  else if (t = 0x26 ∨ t = 0x36 ∨ t = 0x46 ∨ t = 0x56 ∨ t = 0x2E ∨ t = 0x3E ∨
      t = 0x4E ∨ t = 0x5E) ∧ sub = some 0x00 then
    if 3 ≤ data.length ∧ data.get? 2 = some 0x16 then
      match SelectionAction.parse (data.drop 2) with
      | .error e => .error e
      | .ok (sel, consumed) => .ok (.selection sel, 2 + consumed)
    else if 2 ≤ data.length then
      .ok (.basicCommand (t <<< 8), 2)
    else
      .ok (parseUnknownAction t sub data)
  -- (0x20..=0x7F, Some(0x00)): Reforged short-form wrapped types
  else if 0x20 ≤ t ∧ t ≤ 0x7F ∧ sub = some 0x00 then
    if 4 ≤ data.length ∧ data.get? 2 = some 0x16 then
      match SelectionAction.parse (data.drop 2) with
      | .error e => .error e
      | .ok (sel, consumed) => .ok (.selection sel, 2 + consumed)
    else if 2 ≤ data.length then
      .ok (.basicCommand (t <<< 8), 2)
    else
      .ok (parseUnknownAction t sub data)
  -- (0xA0, Some(0x02)): Reforged state sync marker
  else if t = 0xA0 ∧ sub = some 0x02 then
    .ok (.basicCommand 0xA0020000, 2)
  -- (0x80..=0xFF, Some(0x00)): generic high-range handler
  else if 0x80 ≤ t ∧ t ≤ 0xFF ∧ sub = some 0x00 then
    if 4 ≤ data.length ∧ data.get? 2 = some 0x16 then
      match SelectionAction.parse (data.drop 2) with
      | .error e => .error e
      | .ok (sel, consumed) => .ok (.selection sel, 2 + consumed)
    else if 2 ≤ data.length then
      .ok (.basicCommand (t <<< 8), 2)
    else
      .ok (parseUnknownAction t sub data)
  -- (0x0E, Some(0x00)) with embedded 0x1A 0x19 ability
  else if t = 0x0E ∧ sub = some 0x00 ∧ 3 ≤ data.length ∧ data.get? 2 = some 0x1A then
    if 14 ≤ data.length ∧ data.get? 3 = some 0x19 then
      let ability_code := [data.getD 4 0, data.getD 5 0, data.getD 6 0, data.getD 7 0]
      let target_unit :=
        if 12 ≤ data.length then
          some (u32le (data.getD 8 0) (data.getD 9 0) (data.getD 10 0) (data.getD 11 0))
        else none
      .ok (.ability (AbilityAction.fromRaw ability_code target_unit), 14)
    else
      .ok (parseUnknownAction t sub data)
  -- (0x14, Some(0x00)): short marker patterns
  else if t = 0x14 ∧ sub = some 0x00 then
    if 4 ≤ data.length ∧ data.get? 2 = some 0x16 then
      match SelectionAction.parse (data.drop 2) with
      | .error e => .error e
      | .ok (sel, consumed) => .ok (.selection sel, 2 + consumed)
    else
      .ok (.basicCommand 0x14000000, 2)
  -- fallback: unknown action
  else
    .ok (parseUnknownAction t sub data)

/-- `parser.rs::ActionContext`. -/
structure ActionContext where
  timestampMs : Nat
  frameNumber : Nat
deriving DecidableEq

/-- State of `parser.rs::ActionIterator`. -/
structure ActionIterState where
  data : List Nat
  offset : Nat
  context : ActionContext
  finished : Bool
deriving DecidableEq

/-- `ActionIterator::new`. -/
def mkActionIter (data : List Nat) (context : ActionContext) : ActionIterState :=
  ⟨data, 0, context, false⟩

/-- `ActionIterator::parse_next`: parse one action at the current offset,
returning the action together with the new offset. -/
def parseNext (s : ActionIterState) : Except ParserError (Action × Nat) :=
  if s.offset ≥ s.data.length then .error (.unexpectedEof 1 0)
  else
    let data := s.data.drop s.offset
    let player_id := data.getD 0 0
    if player_id = 0 ∨ player_id > 15 then
      .error (.invalidHeader ("Invalid player ID " ++ toString player_id ++
        " at offset " ++ toString s.offset ++ ", expected 1-15"))
    else if data.length < 2 then .error (.unexpectedEof 2 data.length)
    else
      let action_type_byte := data.getD 1 0
      let subcommand := data.get? 2
      match parseActionType action_type_byte subcommand (data.drop 1) with
      | .error e => .error e
      | .ok (action_type, bytes_consumed) =>
        .ok (⟨player_id, action_type, s.context.timestampMs⟩,
          s.offset + (1 + bytes_consumed))

/-- `Iterator::next` for `ActionIterator`: one yielded item (if any) and the
successor state. -/
def actionIterNext (s : ActionIterState) :
    Option (Except ParserError Action) × ActionIterState :=
  if s.finished ∨ s.offset ≥ s.data.length then (none, s)
  else
    match parseNext s with
    | .ok (a, newOffset) => (some (.ok a), { s with offset := newOffset })
    | .error e => (some (.error e), { s with finished := true })

/-- Collect up to `fuel` items from the action iterator. -/
def actionIterRun : Nat → ActionIterState → List (Except ParserError Action)
  | 0, _ => []
  | fuel + 1, s =>
    match actionIterNext s with
    | (none, _) => []
    | (some item, s2) => item :: actionIterRun fuel s2


/-!
Time-frame records and iterator (`src/records/timeframe.rs`).
-/

/-- `timeframe.rs::TimeFrame`. -/
structure TimeFrame where
  time_delta_ms : Nat
  action_data : List Nat
  accumulated_time_ms : Nat
deriving DecidableEq

/-- `ChecksumRecord::SIZE`. -/
def checksumRecordSize : Nat := 6

/-- `LeaveRecord::SIZE`. -/
def leaveRecordSize : Nat := 14

/-- `timeframe.rs::ChatMessage` (the message as UTF-8 bytes of the lossily
decoded string). -/
structure ChatMessage where
  flags : Nat
  message_id : Nat
  message : List Nat
  byte_length : Nat
deriving DecidableEq

/-- Scan of `ChatMessage::parse` for the NUL terminator from index `i`.
Fuel bounds the scan; callers supply `data.length + 1`. -/
def chatMsgEndAux : Nat → List Nat → Nat → Nat
  | 0, _, i => i
  | fuel + 1, data, i =>
    if i < data.length ∧ data.getD i 0 ≠ 0 then chatMsgEndAux fuel data (i + 1) else i

/-- `ChatMessage::parse`. -/
def ChatMessage.parse (data : List Nat) : Except ParserError ChatMessage :=
  if data.length < 5 then .error (.unexpectedEof 5 data.length)
  else if data.getD 0 0 ≠ 0x20 then
    .error (.invalidHeader ("Invalid chat marker: expected 0x" ++ hex2 0x20 ++
      ", found 0x" ++ hex2 (data.getD 0 0)))
  else
    match read_u16_le data 2 with
    | .error e => .error e
    | .ok message_id =>
      let flags := data.getD 1 0
      let msg_start := 9
      let msg_end := chatMsgEndAux (data.length + 1) data msg_start
      let message :=
        if msg_end > msg_start then utf8Lossy (listSlice data msg_start msg_end) else []
      let byte_length := if msg_end < data.length then msg_end + 1 else msg_end
      .ok ⟨flags, message_id, message, byte_length⟩

/-- State of `timeframe.rs::TimeFrameIterator`. -/
structure TimeFrameIterState where
  data : List Nat
  offset : Nat
  accumulatedTime : Nat
  frameCount : Nat
  finished : Bool
deriving DecidableEq

/-- `TimeFrameIterator::new`. -/
def mkTimeFrameIter (data : List Nat) (startOffset : Nat) : TimeFrameIterState :=
  ⟨data, startOffset, 0, 0, false⟩

/-- `TimeFrameIterator::is_valid_timeframe_at`: a marker byte `0x1E`/`0x1F`
with at least 5 bytes remaining whose following `u16` values pass the
`delta < 5000` and `hint < 8000` heuristic. -/
def isValidTimeframeAt (data : List Nat) (offset : Nat) : Bool :=
  if offset + 5 > data.length then false
  else
    let marker := data.getD offset 0
    if marker ≠ 0x1E ∧ marker ≠ 0x1F then false
    else
      let time_delta := u16le (data.getD (offset + 1) 0) (data.getD (offset + 2) 0)
      let length_hint := u16le (data.getD (offset + 3) 0) (data.getD (offset + 4) 0)
      decide (time_delta < 5000 ∧ length_hint < 8000)

/-- Scan loop of `TimeFrameIterator::find_next_timeframe` over `i < e`. -/
def findNextTimeframeAux : Nat → List Nat → Nat → Nat → Option Nat
  | 0, _, _, _ => none
  | fuel + 1, data, i, e =>
    if i < e then
      if isValidTimeframeAt data i then some i
      else findNextTimeframeAux fuel data (i + 1) e
    else none

/-- `TimeFrameIterator::find_next_timeframe`: bounded forward search (at
most 1000 bytes) for the next validated frame marker. -/
def findNextTimeframe (data : List Nat) (offset : Nat) : Option Nat :=
  let e := min (offset + 1000) data.length
  findNextTimeframeAux (e + 1) data (offset + 1) e

/-- `TimeFrameIterator::skip_non_timeframe_records`: returns whether a
validated frame marker was found, together with the updated state.  Fuel
bounds the loop; the caller supplies `data.length + 1`, which is never
exhausted because every branch either returns or strictly increases the
offset (and the loop stops once the offset reaches the end). -/
def skipNonTimeframeRecords : Nat → TimeFrameIterState → Nat → Bool × TimeFrameIterState
  | 0, s, _ => (false, { s with finished := true })
  | fuel + 1, s, bytesScanned =>
    if s.offset ≥ s.data.length then (false, { s with finished := true })
    else if bytesScanned > 10000 then (false, { s with finished := true })
    else
      let b := s.data.getD s.offset 0
      if b = 0x22 then
        skipNonTimeframeRecords fuel { s with offset := s.offset + checksumRecordSize }
          (bytesScanned + checksumRecordSize)
      else if b = 0x20 then
        match ChatMessage.parse (s.data.drop s.offset) with
        | .ok msg =>
          skipNonTimeframeRecords fuel { s with offset := s.offset + msg.byte_length }
            (bytesScanned + msg.byte_length)
        | .error _ =>
          skipNonTimeframeRecords fuel { s with offset := s.offset + 1 } (bytesScanned + 1)
      else if b = 0x17 then
        skipNonTimeframeRecords fuel { s with offset := s.offset + leaveRecordSize }
          (bytesScanned + leaveRecordSize)
      else if b = 0x1E ∨ b = 0x1F then
        if isValidTimeframeAt s.data s.offset then (true, s)
        else
          skipNonTimeframeRecords fuel { s with offset := s.offset + 1 } (bytesScanned + 1)
      else if b = 0x00 then
        skipNonTimeframeRecords fuel { s with offset := s.offset + 1 } (bytesScanned + 1)
      else
        match findNextTimeframe s.data s.offset with
        | some nextTf =>
          -- the source updates the offset first, so its `bytes_scanned`
          -- increment `next_tf - self.offset` is zero; mirrored literally
          skipNonTimeframeRecords fuel { s with offset := nextTf }
            (bytesScanned + (nextTf - nextTf))
        | none => (false, { s with finished := true })

/-- Marker set of `timeframe.rs::find_action_boundary`. -/
def isBoundaryByte (b : Nat) : Bool :=
  b == 0x1E || b == 0x1F || b == 0x22 || b == 0x20 || b == 0x17

/-- Scan loop of `find_action_boundary` from index `i`; `data.length` when
no marker occurs.  Fuel bounds the scan; callers supply `data.length + 1`. -/
def findActionBoundaryAux : Nat → List Nat → Nat → Nat
  | 0, data, _ => data.length
  | fuel + 1, data, i =>
    if i < data.length then
      if isBoundaryByte (data.getD i 0) then i
      else findActionBoundaryAux fuel data (i + 1)
    else data.length

/-- `timeframe.rs::find_action_boundary`. -/
def find_action_boundary (data : List Nat) (start : Nat) : Nat :=
  findActionBoundaryAux (data.length + 1) data start

/-- `TimeFrameIterator::parse_timeframe`: parse one frame at the current
offset, yielding the frame and the updated state (accumulated time and
offset advanced). -/
def parseTimeframe (s : TimeFrameIterState) :
    Except ParserError (TimeFrame × TimeFrameIterState) :=
  let data := s.data.drop s.offset
  if data.length < 5 then .error (.unexpectedEof 5 data.length)
  else
    let marker := data.getD 0 0
    if marker ≠ 0x1E ∧ marker ≠ 0x1F then
      .error (.invalidHeader
        ("Invalid TimeFrame marker: expected 0x1E or 0x1F, found 0x" ++ hex2 marker))
    else
      match read_u16_le data 1 with
      | .error e => .error e
      | .ok time_delta_ms =>
        match read_u16_le data 3 with
        | .error e => .error e
        | .ok _length_hint =>
          -- the length hint is read but ignored; boundaries come from the
          -- marker scan below
          let action_start := 5
          let action_end := find_action_boundary data action_start
          let action_data :=
            if action_end > action_start then listSlice data action_start action_end
            else []
          let newAccumulated := satAdd32 s.accumulatedTime time_delta_ms
          .ok (⟨time_delta_ms, action_data, newAccumulated⟩,
            { s with accumulatedTime := newAccumulated, offset := s.offset + action_end })

/-- `Iterator::next` for `TimeFrameIterator`: one yielded item (if any) and
the successor state. -/
def timeFrameNext (s : TimeFrameIterState) :
    Option (Except ParserError TimeFrame) × TimeFrameIterState :=
  if s.finished then (none, s)
  else
    match skipNonTimeframeRecords (s.data.length + 1) s 0 with
    | (false, s1) => (none, s1)
    | (true, s1) =>
      match parseTimeframe s1 with
      | .ok (frame, s2) => (some (.ok frame), { s2 with frameCount := s2.frameCount + 1 })
      | .error e => (some (.error e), { s1 with finished := true })

/-- Collect up to `fuel` items from the time-frame iterator. -/
def timeFrameRun : Nat → TimeFrameIterState → List (Except ParserError TimeFrame)
  | 0, _ => []
  | fuel + 1, s =>
    match timeFrameNext s with
    | (none, _) => []
    | (some item, s2) => item :: timeFrameRun fuel s2

/-- Time deltas of the frames among a list of yielded items. -/
def okDeltas (items : List (Except ParserError TimeFrame)) : List Nat :=
  items.filterMap (fun item =>
    match item with
    | .ok f => some f.time_delta_ms
    | .error _ => none)


/-!
Concrete byte buffers used by the claim theorems.
-/

/-- Spec scenario 1: direct-ability frame payload
`03 1A 19 77 6F 74 68 3B 3A 00 00 3B 3A 00 00`. -/
def c1Payload : List Nat :=
  [0x03, 0x1A, 0x19, 0x77, 0x6F, 0x74, 0x68, 0x3B, 0x3A, 0x00, 0x00, 0x3B, 0x3A, 0x00, 0x00]

/-- Spec scenario 6: truncated direct ability `03 1A 19 77 6F`. -/
def c2TruncatedAbility : List Nat := [0x03, 0x1A, 0x19, 0x77, 0x6F]

/-- A truncated item action: player 3, opcode `0x1B`, no body bytes. -/
def c2TruncatedItem : List Nat := [0x03, 0x1B]

/-- Spec scenario 2: ground-movement frame payload (29 bytes). -/
def c3MovementPayload : List Nat :=
  [0x05, 0x00, 0x0D, 0x00, 0x00, 0xFF, 0xFF, 0xFF, 0xFF, 0xFF, 0xFF, 0xFF, 0xFF,
   0x00, 0x00, 0xB0, 0xC5, 0x00, 0x00, 0x60, 0x45, 0x00, 0x00, 0x00, 0x00, 0x00,
   0x00, 0x00, 0x00]

/-- Two empty frames: delta 100 ms followed by delta 0 ms. -/
def c6TwoFrames : List Nat := [0x1F, 100, 0, 0, 0, 0x1F, 0, 0, 0, 0]

/-!
Helper lemmas shared by the claim theorems.
-/

/-- A valid UTF-8 split reassembles the input, and the remainder is no
longer than the tail. -/
theorem utf8SeqSplit_valid {b : Nat} {rest seq rest2 : List Nat}
    (h : utf8SeqSplit b rest = .valid seq rest2) :
    b :: rest = seq ++ rest2 := by
  unfold utf8SeqSplit at h
  repeat' split at h
  all_goals simp_all
  all_goals (rw [← h.1]; simp [h.2])

/-- Valid UTF-8 decodes lossily to itself (fuel-level statement). -/
theorem utf8LossyAux_of_validate :
    ∀ fuel pos l, utf8ValidateFromAux fuel pos l = none → utf8LossyAux fuel l = l := by
  intro fuel
  induction fuel with
  | zero =>
    intro pos l h
    cases l with
    | nil => rfl
    | cons b rest => simp [utf8ValidateFromAux] at h
  | succ n ih =>
    intro pos l h
    cases l with
    | nil => rfl
    | cons b rest =>
      simp only [utf8ValidateFromAux] at h
      simp only [utf8LossyAux]
      cases hs : utf8SeqSplit b rest with
      | valid seq rest2 =>
        rw [hs] at h
        have h2 : utf8ValidateFromAux n (pos + seq.length) rest2 = none := h
        have hgoal : seq ++ utf8LossyAux n rest2 = b :: rest := by
          rw [ih _ _ h2]
          exact (utf8SeqSplit_valid hs).symm
        exact hgoal
      | invalid skip rest2 =>
        rw [hs] at h
        exact Option.noConfusion h
      | incomplete =>
        rw [hs] at h
        exact Option.noConfusion h

/-- Valid UTF-8 decodes lossily to itself. -/
theorem utf8Lossy_of_valid {l : List Nat} (h : validUtf8 l = true) : utf8Lossy l = l :=
  utf8LossyAux_of_validate l.length 0 l
    (by simpa [validUtf8, utf8Validate, Option.isNone_iff_eq_none] using h)


/-- Indexing into a dropped list. -/
theorem getD_drop (l : List Nat) (n m d : Nat) : (l.drop n).getD m d = l.getD (n + m) d := by
  simp [List.getD_eq_getElem?_getD, List.getElem?_drop]

/-- A list with an index in range splits at that index. -/
theorem drop_eq_getD_cons {l : List Nat} {i : Nat} (h : i < l.length) :
    l.drop i = l.getD i 0 :: l.drop (i + 1) := by
  rw [List.drop_eq_getElem_cons h, List.getD_eq_getElem l 0 h]

/-- Taking as many elements as `takeWhile` keeps yields `takeWhile`. -/
theorem take_length_takeWhile (p : Nat → Bool) :
    ∀ l : List Nat, l.take (l.takeWhile p).length = l.takeWhile p := by
  intro l
  induction l with
  | nil => rfl
  | cons a l ih => by_cases hp : p a <;> simp [List.takeWhile_cons, hp, ih]

/-- Without any NUL byte, the NUL search fails. -/
theorem findIdx?_zero_eq_none {l : List Nat} (h : l.all (fun b => b != 0) = true) :
    l.findIdx? (fun b => b == 0) = none := by
  induction l with
  | nil => simp
  | cons a l ih =>
    simp only [List.all_cons, Bool.and_eq_true, bne_iff_ne, ne_eq] at h
    simp [List.findIdx?_cons, h.1, ih h.2]

set_option maxRecDepth 4000 in
/-- The boundary scan stops exactly after the marker-free prefix (fuel-level
statement; the fuel hypothesis is satisfied by the wrapper). -/
theorem findActionBoundaryAux_eq :
    ∀ fuel d i, d.length + 1 ≤ i + fuel → i ≤ d.length →
      findActionBoundaryAux fuel d i =
        i + ((d.drop i).takeWhile (fun b => !isBoundaryByte b)).length := by
  intro fuel
  induction fuel with
  | zero => intro d i h1 h2; omega
  | succ n ih =>
    intro d i h1 h2
    simp only [findActionBoundaryAux]
    by_cases hi : i < d.length
    · rw [drop_eq_getD_cons hi]
      simp only [List.takeWhile_cons]
      by_cases hb : isBoundaryByte (d.getD i 0) = true
      · simp only [hb]
        simp [hi]
      · have hb2 : isBoundaryByte (d.getD i 0) = false := by
          cases hq : isBoundaryByte (d.getD i 0) with
          | true => exact absurd hq hb
          | false => rfl
        have ihv := ih d (i + 1) (by omega) (by omega)
        simp only [hb2]
        simp [hi, ihv]
        omega
    · have hieq : i = d.length := by omega
      simp [hi, hieq, List.drop_length]

/-- `find_action_boundary` from a start inside the buffer is the start plus
the length of the marker-free prefix. -/
theorem find_action_boundary_eq {d : List Nat} {start : Nat} (h : start ≤ d.length) :
    find_action_boundary d start =
      start + ((d.drop start).takeWhile (fun b => !isBoundaryByte b)).length :=
  findActionBoundaryAux_eq (d.length + 1) d start (by omega) h


/-- Record-skipping changes only the offset and finished flag: buffer,
accumulated time and frame count are preserved. -/
theorem skip_preserves : ∀ fuel s bytesScanned,
    (skipNonTimeframeRecords fuel s bytesScanned).2.data = s.data ∧
    (skipNonTimeframeRecords fuel s bytesScanned).2.accumulatedTime = s.accumulatedTime ∧
    (skipNonTimeframeRecords fuel s bytesScanned).2.frameCount = s.frameCount := by
  intro fuel
  induction fuel with
  | zero => intro s bytesScanned; simp [skipNonTimeframeRecords]
  | succ n ih =>
    intro s bytesScanned
    simp only [skipNonTimeframeRecords]
    repeat' split
    all_goals simp [ih]

/-- A successful frame parse accumulates its delta with saturating addition
and leaves the buffer unchanged. -/
theorem parseTimeframe_ok {s : TimeFrameIterState} {f : TimeFrame} {s2 : TimeFrameIterState}
    (h : parseTimeframe s = .ok (f, s2)) :
    f.accumulated_time_ms = satAdd32 s.accumulatedTime f.time_delta_ms ∧
    s2.accumulatedTime = f.accumulated_time_ms ∧ s2.data = s.data := by
  simp only [parseTimeframe] at h
  repeat' split at h
  all_goals try exact Except.noConfusion h
  all_goals
    simp only [Except.ok.injEq, Prod.mk.injEq] at h
    obtain ⟨hf, hs⟩ := h
    subst hf
    subst hs
    exact ⟨rfl, rfl, rfl⟩

/-- A yielded frame accumulates its delta onto the pre-step accumulated
time, and the post-step state records that value. -/
theorem timeFrameNext_ok {s : TimeFrameIterState} {f : TimeFrame} {s2 : TimeFrameIterState}
    (h : timeFrameNext s = (some (.ok f), s2)) :
    f.accumulated_time_ms = satAdd32 s.accumulatedTime f.time_delta_ms ∧
    s2.accumulatedTime = f.accumulated_time_ms ∧ s2.data = s.data := by
  unfold timeFrameNext at h
  split at h
  · simp at h
  · split at h
    next s1 hskip =>
      -- found = false: nothing is yielded
      simp at h
    next s1 hskip =>
      split at h
      next frame s3 hparse =>
        have hpre := skip_preserves (s.data.length + 1) s 0
        rw [hskip] at hpre
        have hok := parseTimeframe_ok hparse
        simp only [Prod.mk.injEq, Option.some.injEq] at h
        obtain ⟨hf, hs2⟩ := h
        cases hf
        subst hs2
        refine ⟨?_, ?_, ?_⟩
        · rw [hok.1, hpre.2.1]
        · simpa using hok.2.1
        · simpa using hok.2.2.trans hpre.1
      next e hparse => simp at h

/-- A yielded error leaves the accumulated time unchanged. -/
theorem timeFrameNext_error {s : TimeFrameIterState} {e : ParserError}
    {s2 : TimeFrameIterState} (h : timeFrameNext s = (some (.error e), s2)) :
    s2.accumulatedTime = s.accumulatedTime := by
  unfold timeFrameNext at h
  split at h
  · simp at h
  · split at h
    next s1 hskip => simp at h
    next s1 hskip =>
      split at h
      next frame s3 hparse => simp at h
      next e2 hparse =>
        have hpre := skip_preserves (s.data.length + 1) s 0
        rw [hskip] at hpre
        simp only [Prod.mk.injEq, Option.some.injEq] at h
        obtain ⟨_, hs2⟩ := h
        subst hs2
        simpa using hpre.2.1


/-- Saturating addition never exceeds `u32::MAX`. -/
theorem satAdd32_le_max (a b : Nat) : satAdd32 a b ≤ 4294967295 := by
  unfold satAdd32
  omega

/-- Saturating addition does not decrease a value bounded by `u32::MAX`. -/
theorem le_satAdd32 {a : Nat} (b : Nat) (h : a ≤ 4294967295) : a ≤ satAdd32 a b := by
  unfold satAdd32
  omega

/-- A saturating fold never exceeds `u32::MAX` when started below it. -/
theorem foldl_satAdd32_le_max :
    ∀ (ds : List Nat) (a : Nat), a ≤ 4294967295 →
      List.foldl satAdd32 a ds ≤ 4294967295 := by
  intro ds
  induction ds with
  | nil => intro a h; simpa using h
  | cons d ds ih => intro a h; simpa using ih (satAdd32 a d) (satAdd32_le_max a d)

/-- A saturating fold does not decrease its bounded starting value. -/
theorem le_foldl_satAdd32 :
    ∀ (ds : List Nat) (a : Nat), a ≤ 4294967295 →
      a ≤ List.foldl satAdd32 a ds := by
  intro ds
  induction ds with
  | nil => intro a h; simp
  | cons d ds ih =>
    intro a h
    calc a ≤ satAdd32 a d := le_satAdd32 d h
    _ ≤ List.foldl satAdd32 (satAdd32 a d) ds := ih _ (satAdd32_le_max a d)
    _ = List.foldl satAdd32 a (d :: ds) := by simp

/-- Accumulated-time invariant of the frame stream: the `n`-th yielded frame
carries the saturating-add fold of the pre-run accumulated time with the
deltas of the frames yielded up to and including it. -/
theorem timeFrameRun_acc : ∀ fuel (s : TimeFrameIterState) n (f : TimeFrame),
    (timeFrameRun fuel s).get? n = some (.ok f) →
    f.accumulated_time_ms =
      List.foldl satAdd32 s.accumulatedTime (okDeltas ((timeFrameRun fuel s).take (n + 1))) := by
  intro fuel
  induction fuel with
  | zero => intro s n f h; simp [timeFrameRun] at h
  | succ m ih =>
    intro s n f h
    simp only [timeFrameRun] at h ⊢
    rcases hnx : timeFrameNext s with ⟨item, s2⟩
    rw [hnx] at h
    cases item with
    | none => simp at h
    | some item0 =>
      dsimp only at h ⊢
      cases n with
      | zero =>
        have h0 : some item0 = some (Except.ok f) := h
        injection h0 with h0
        subst h0
        have hok := timeFrameNext_ok hnx
        simp [okDeltas, hok.1]
      | succ k =>
        have h1 : (timeFrameRun m s2).get? k = some (.ok f) := h
        have ihv := ih s2 k f h1
        simp only [okDeltas] at ihv
        cases item0 with
        | ok g =>
          have hok := timeFrameNext_ok hnx
          simp only [List.take_succ_cons, okDeltas, List.filterMap_cons]
          have hacc : satAdd32 s.accumulatedTime g.time_delta_ms = s2.accumulatedTime := by
            rw [hok.2.1, hok.1]
          simp only [List.foldl_cons]
          rw [hacc]
          exact ihv
        | error e =>
          have herr := timeFrameNext_error hnx
          simp only [List.take_succ_cons, okDeltas, List.filterMap_cons]
          rw [← herr]
          exact ihv


/-- Monotonicity of accumulated time across the yielded frame stream. -/
theorem timeFrameRun_mono {fuel : Nat} {data : List Nat} {start m n : Nat}
    {fm fn : TimeFrame} (hmn : m ≤ n)
    (hm : (timeFrameRun fuel (mkTimeFrameIter data start)).get? m = some (.ok fm))
    (hn : (timeFrameRun fuel (mkTimeFrameIter data start)).get? n = some (.ok fn)) :
    fm.accumulated_time_ms ≤ fn.accumulated_time_ms := by
  have hs0 : (mkTimeFrameIter data start).accumulatedTime = 0 := rfl
  have hacc_m := timeFrameRun_acc fuel (mkTimeFrameIter data start) m fm hm
  have hacc_n := timeFrameRun_acc fuel (mkTimeFrameIter data start) n fn hn
  rw [hs0] at hacc_m hacc_n
  set items := timeFrameRun fuel (mkTimeFrameIter data start) with hitems
  have hsplit : items.take (n + 1) =
      items.take (m + 1) ++ (items.take (n + 1)).drop (m + 1) := by
    conv_lhs => rw [← List.take_append_drop (m + 1) (items.take (n + 1))]
    rw [List.take_take, Nat.min_eq_left (by omega : m + 1 ≤ n + 1)]
  rw [hsplit] at hacc_n
  simp only [okDeltas, List.filterMap_append, List.foldl_append] at hacc_n
  simp only [okDeltas] at hacc_m
  rw [← hacc_m] at hacc_n
  rw [hacc_n]
  refine le_foldl_satAdd32 _ _ ?_
  rw [hacc_m]
  exact foldl_satAdd32_le_max _ 0 (by omega)


/-- In-range optional indexing agrees with defaulted indexing. -/
theorem get?_eq_getD {l : List Nat} {i : Nat} (h : i < l.length) :
    l.get? i = some (l.getD i 0) := by
  rw [List.get?_eq_getElem? l i, List.getD_eq_getElem l 0 h]
  exact List.getElem?_eq_getElem h

/-- After yielding an error, the action iterator is finished. -/
theorem actionIterNext_error_finished {s : ActionIterState} {e : ParserError}
    {s2 : ActionIterState} (h : actionIterNext s = (some (.error e), s2)) :
    s2.finished = true := by
  unfold actionIterNext at h
  split at h
  · simp at h
  · split at h
    next a newOffset heq => simp at h
    next e2 heq =>
      simp only [Prod.mk.injEq] at h
      rw [← h.2]

/-- A finished action iterator yields nothing. -/
theorem actionIterNext_finished {s : ActionIterState} (h : s.finished = true) :
    actionIterNext s = (none, s) := by
  unfold actionIterNext
  rw [if_pos (Or.inl h)]


/-!
Claim theorems.
-/

/-- C1: running the action iterator on the 15-byte frame payload
`03 1A 19 77 6F 74 68 3B 3A 00 00 3B 3A 00 00` with frame timestamp 2000 ms
yields exactly one action: player 3, kind `Ability` with raw FourCC
`77 6F 74 68`, canonical rendering the UTF-8 bytes of "htow"
(`[104, 116, 111, 119]`), target unit `some 0x00003A3B`, timestamp 2000 ms;
the iterator consumes all 15 bytes and yields nothing more. -/
theorem c1_direct_ability_decode :
    actionIterRun 16 (mkActionIter c1Payload ⟨2000, 0⟩) =
      [.ok ⟨3, .ability ⟨AbilityCode.fromRaw [0x77, 0x6F, 0x74, 0x68], some 0x00003A3B⟩,
        2000⟩] ∧
    AbilityCode.asStringBytes (AbilityCode.fromRaw [0x77, 0x6F, 0x74, 0x68]) =
      [104, 116, 111, 119] ∧
    (actionIterNext (mkActionIter c1Payload ⟨2000, 0⟩)).2.offset = 15 ∧
    (actionIterNext ((actionIterNext (mkActionIter c1Payload ⟨2000, 0⟩)).2)).1 = none := by
  exact ⟨rfl, rfl, rfl, rfl⟩

/-- C7 counterexample: `0x11` lies in the range `0x10..=0x14` and yet is a
member of the recognized-action-type set used for boundary detection, so the
set does not exclude the whole range. -/
theorem c7_counterexample :
    0x10 ≤ 0x11 ∧ 0x11 ≤ 0x14 ∧ isKnownActionType 0x11 = true := by
  decide

/-- C7 amended: the recognized-action-type set used for unknown-opcode
boundary detection rejects `0x10`, `0x12`, `0x13` and `0x14`, but contains
`0x11` (the Reforged wrapped-ability opcode). -/
theorem c7_boundary_set :
    isKnownActionType 0x10 = false ∧ isKnownActionType 0x11 = true ∧
    isKnownActionType 0x12 = false ∧ isKnownActionType 0x13 = false ∧
    isKnownActionType 0x14 = false := by
  decide

/-- C9 counterexample: for the ability id with raw bytes `68 74 6F FF`, the
canonical rendering produced by `as_string` (via `from_utf8_lossy`) is the
six UTF-8 bytes `EF BF BD 6F 74 68`, not the byte-reversal `FF 6F 74 68`,
and its length is 6, not 4. -/
theorem c9_counterexample :
    AbilityCode.asStringBytes (AbilityCode.fromRaw [0x68, 0x74, 0x6F, 0xFF]) =
      [0xEF, 0xBF, 0xBD, 0x6F, 0x74, 0x68] ∧
    (AbilityCode.fromRaw [0x68, 0x74, 0x6F, 0xFF]).raw.reverse = [0xFF, 0x6F, 0x74, 0x68] ∧
    AbilityCode.asStringBytes (AbilityCode.fromRaw [0x68, 0x74, 0x6F, 0xFF]) ≠
      (AbilityCode.fromRaw [0x68, 0x74, 0x6F, 0xFF]).raw.reverse ∧
    (AbilityCode.asStringBytes (AbilityCode.fromRaw [0x68, 0x74, 0x6F, 0xFF])).length ≠ 4 := by
  exact ⟨rfl, rfl, by decide, by decide⟩

/-- C9 amended: for every 4-byte ability id whose byte-reversal is valid
UTF-8, the canonical rendering equals the byte-reversal and has length 4;
and `from_raw (raw_bytes id) = id` holds for every ability id. -/
theorem c9_ability_id :
    (∀ b0 b1 b2 b3 : Nat, validUtf8 [b3, b2, b1, b0] = true →
      AbilityCode.asStringBytes (AbilityCode.fromRaw [b0, b1, b2, b3]) = [b3, b2, b1, b0] ∧
      (AbilityCode.asStringBytes (AbilityCode.fromRaw [b0, b1, b2, b3])).length = 4) ∧
    (∀ c : AbilityCode, AbilityCode.fromRaw (AbilityCode.rawBytes c) = c) := by
  constructor
  · intro b0 b1 b2 b3 h
    have hs : AbilityCode.asStringBytes (AbilityCode.fromRaw [b0, b1, b2, b3]) =
        [b3, b2, b1, b0] := by
      show utf8Lossy [b3, b2, b1, b0] = [b3, b2, b1, b0]
      exact utf8Lossy_of_valid h
    refine ⟨hs, ?_⟩
    rw [hs]
    rfl
  · intro c
    cases c
    rfl

/-- C9 witness: the amended statement applied to the raw bytes of "htow"
(stored reversed as `77 6F 74 68`), whose reversal is ASCII. -/
theorem c9_ability_id_witness :
    AbilityCode.asStringBytes (AbilityCode.fromRaw [0x77, 0x6F, 0x74, 0x68]) =
      [0x68, 0x74, 0x6F, 0x77] ∧
    AbilityCode.fromRaw (AbilityCode.rawBytes (AbilityCode.fromRaw [0x77, 0x6F, 0x74, 0x68])) =
      AbilityCode.fromRaw [0x77, 0x6F, 0x74, 0x68] :=
  ⟨(c9_ability_id.1 0x77 0x6F 0x74 0x68 (by decide)).1,
    c9_ability_id.2 (AbilityCode.fromRaw [0x77, 0x6F, 0x74, 0x68])⟩

/-- C8 counterexample: `read_string` on bytes that are not valid UTF-8 fails
with `InvalidHeader` — the error taxonomy has no `InvalidUtf8` kind at all
(see `ParserError`). -/
theorem c8_counterexample :
    read_string [0xFF, 0xFE, 0x00] 0 10 =
      .error (.invalidHeader
        "Invalid UTF-8 string at offset 0: invalid utf-8 sequence of 1 bytes from index 0") := by
  rfl

/-- C8 amended: every string read whose selected bytes are not valid UTF-8
fails with an `InvalidHeader` error (the `ParserError` taxonomy has no
separate `InvalidUtf8` kind), for both `read_string` and
`read_fixed_string`. -/
theorem c8_invalid_utf8_error_kind :
    (∀ (bytes : List Nat) (offset maxLen : Nat), offset < bytes.length →
      validUtf8 (readStringScan bytes offset maxLen) = false →
      ∃ r, read_string bytes offset maxLen = .error (.invalidHeader r)) ∧
    (∀ (bytes : List Nat) (offset len : Nat), offset + len ≤ bytes.length →
      validUtf8 (readFixedStringScan bytes offset len) = false →
      ∃ r, read_fixed_string bytes offset len = .error (.invalidHeader r)) := by
  constructor
  · intro bytes offset maxLen h1 h2
    simp only [read_string]
    rw [if_neg (by omega)]
    cases hv : utf8Validate (readStringScan bytes offset maxLen) with
    | none =>
      rw [validUtf8, hv] at h2
      simp at h2
    | some err =>
      exact ⟨_, rfl⟩
  · intro bytes offset len h1 h2
    simp only [read_fixed_string, read_bytes]
    rw [if_neg (by omega)]
    dsimp only
    simp only [readFixedStringScan] at h2
    cases hv : utf8Validate ((listSlice bytes offset (offset + len)).take
        (((listSlice bytes offset (offset + len)).findIdx? (fun b => b == 0)).getD len)) with
    | none =>
      rw [validUtf8, hv] at h2
      simp at h2
    | some err =>
      exact ⟨_, rfl⟩

/-- C8 witness: the amended statement applied to concrete non-UTF-8 reads. -/
theorem c8_invalid_utf8_error_kind_witness :
    (∃ r, read_string [0xFF, 0xFE, 0x00] 0 10 = .error (.invalidHeader r)) ∧
    (∃ r, read_fixed_string [0xFF, 0xFE] 0 2 = .error (.invalidHeader r)) :=
  ⟨c8_invalid_utf8_error_kind.1 [0xFF, 0xFE, 0x00] 0 10 (by decide) (by decide),
    c8_invalid_utf8_error_kind.2 [0xFF, 0xFE] 0 2 (by decide) (by decide)⟩

/-- C10 counterexample: a scan window with no NUL byte anywhere still makes
`read_string` fail when the scanned bytes are not valid UTF-8, so the
absence of a NUL terminator alone does not guarantee success. -/
theorem c10_counterexample :
    readStringSearchSlice [0xFF] 0 1 = [0xFF] ∧
    ([0xFF] : List Nat).all (fun b => b != 0) = true ∧
    read_string [0xFF] 0 1 =
      .error (.invalidHeader
        "Invalid UTF-8 string at offset 0: invalid utf-8 sequence of 1 bytes from index 0") := by
  exact ⟨rfl, by decide, rfl⟩

/-- C10 amended: when the scan window holds no NUL byte and its bytes are
valid UTF-8, `read_string` succeeds and returns the whole scan window; the
absence of a NUL terminator is itself never an error. -/
theorem c10_no_nul_reads_all :
    ∀ (bytes : List Nat) (offset maxLen : Nat), offset < bytes.length →
      (readStringSearchSlice bytes offset maxLen).all (fun b => b != 0) = true →
      validUtf8 (readStringSearchSlice bytes offset maxLen) = true →
      read_string bytes offset maxLen = .ok (readStringSearchSlice bytes offset maxLen) := by
  intro bytes offset maxLen h1 h2 h3
  have hscan : readStringScan bytes offset maxLen = readStringSearchSlice bytes offset maxLen := by
    simp only [readStringScan]
    rw [findIdx?_zero_eq_none h2]
    simp
  simp only [read_string]
  rw [if_neg (by omega), hscan]
  have hv : utf8Validate (readStringSearchSlice bytes offset maxLen) = none :=
    Option.isNone_iff_eq_none.mp h3
  rw [hv]

/-- C10 witness: the amended statement applied to a NUL-free ASCII buffer. -/
theorem c10_no_nul_reads_all_witness :
    read_string [72, 105] 0 5 = .ok (readStringSearchSlice [72, 105] 0 5) :=
  c10_no_nul_reads_all [72, 105] 0 5 (by decide) (by decide) (by decide)


/-- One step of `parse_next` at offset 0 with a valid player id reduces to
the dispatch on `(opcode, subcommand)`. -/
theorem parseNext_zero (p : List Nat) (ts fn : Nat) (h2 : 2 ≤ p.length)
    (hpl : ¬(p.getD 0 0 = 0 ∨ p.getD 0 0 > 15)) :
    parseNext ⟨p, 0, ⟨ts, fn⟩, false⟩ =
      match parseActionType (p.getD 1 0) (p.get? 2) (p.drop 1) with
      | .error e => .error e
      | .ok (action_type, bytes_consumed) =>
        .ok (⟨p.getD 0 0, action_type, ts⟩, 0 + (1 + bytes_consumed)) := by
  simp only [parseNext, List.drop_zero]
  rw [if_neg (show ¬((0 : Nat) ≥ p.length) by omega), if_neg hpl,
    if_neg (show ¬(p.length < 2) by omega)]

/-- A successful dispatch of the first action makes the iterator yield it. -/
theorem actionIterNext_zero_ok {p : List Nat} {ts fn : Nat} {a : ActionType} {c : Nat}
    (h2 : 2 ≤ p.length) (hpl : ¬(p.getD 0 0 = 0 ∨ p.getD 0 0 > 15))
    (hpa : parseActionType (p.getD 1 0) (p.get? 2) (p.drop 1) = .ok (a, c)) :
    actionIterNext ⟨p, 0, ⟨ts, fn⟩, false⟩ =
      (some (.ok ⟨p.getD 0 0, a, ts⟩), ⟨p, 1 + c, ⟨ts, fn⟩, false⟩) := by
  simp only [actionIterNext]
  rw [parseNext_zero p ts fn h2 hpl, hpa]
  simp [show ¬((0 : Nat) ≥ p.length) from by omega]

/-- A failed dispatch of the first action makes the iterator yield the error
and finish. -/
theorem actionIterNext_zero_error {p : List Nat} {ts fn : Nat} {e : ParserError}
    (h2 : 2 ≤ p.length) (hpl : ¬(p.getD 0 0 = 0 ∨ p.getD 0 0 > 15))
    (hpa : parseActionType (p.getD 1 0) (p.get? 2) (p.drop 1) = .error e) :
    actionIterNext ⟨p, 0, ⟨ts, fn⟩, false⟩ =
      (some (.error e), ⟨p, 0, ⟨ts, fn⟩, true⟩) := by
  simp only [actionIterNext]
  rw [parseNext_zero p ts fn h2 hpl, hpa]
  simp [show ¬((0 : Nat) ≥ p.length) from by omega]

/-- C2 counterexample: the payload `03 1B` truncates the fixed-size item
action body (opcode `0x1B`, declared 14 bytes), yet the iterator yields a
single `Ok` item (an `ItemAction` with id 0) and no error at all, because
the `0x1B` arm consumes `14.min(len)` bytes without a length check. -/
theorem c2_counterexample :
    actionIterRun 3 (mkActionIter c2TruncatedItem ⟨0, 0⟩) = [.ok ⟨3, .itemAction 0, 0⟩] ∧
    ∀ e, Except.error e ∉ actionIterRun 3 (mkActionIter c2TruncatedItem ⟨0, 0⟩) := by
  refine ⟨rfl, ?_⟩
  intro e he
  rw [show actionIterRun 3 (mkActionIter c2TruncatedItem ⟨0, 0⟩) =
    [.ok ⟨3, .itemAction 0, 0⟩] from rfl] at he
  simp at he

/-- Helper: the nine length-tolerant opcode arms (`0x1B`, `0x1C`, `0x1D`,
`0x19`, `0x1E`, `0x50`, `0x51`, `0x68`, `0x15`) always return `Ok`, for
every subcommand and every (possibly truncated) body. -/
theorem parseActionType_tolerant (t : Nat)
    (ht : t = 0x1B ∨ t = 0x1C ∨ t = 0x1D ∨ t = 0x19 ∨ t = 0x1E ∨ t = 0x50 ∨
      t = 0x51 ∨ t = 0x68 ∨ t = 0x15) (sub : Option Nat) (data : List Nat) :
    ∃ ac : ActionType × Nat, parseActionType t sub data = .ok ac := by
  rcases ht with h | h | h | h | h | h | h | h | h <;>
  · subst h
    simp [parseActionType]
    all_goals try split
    all_goals exact ⟨_, _, rfl⟩

/-- Helper: an opcode byte with no dispatch arm at all falls through to
`parse_unknown_action`, for every subcommand and every body. -/
theorem parseActionType_fallback (t : Nat)
    (ht : t = 0x02 ∨ t = 0x04 ∨ t = 0x05 ∨ t = 0x06 ∨ t = 0x07 ∨ t = 0x08 ∨
      t = 0x09 ∨ t = 0x0A ∨ t = 0x0B ∨ t = 0x0D ∨ t = 0x10 ∨ t = 0x12 ∨
      t = 0x13 ∨ t = 0x1F) (sub : Option Nat) (data : List Nat) :
    parseActionType t sub data = .ok (parseUnknownAction t sub data) := by
  rcases ht with h | h | h | h | h | h | h | h | h | h | h | h | h | h <;>
    subst h <;> simp [parseActionType]

/-- C2 amended: error semantics of the action iterator. (1) After any
yielded error the iterator yields nothing more. (2) A player-id byte
outside `1..=15` yields exactly the `InvalidHeader` error built by
`parse_next`. (3) The truncated direct ability `03 1A 19 77 6F` yields
exactly one `UnexpectedEof` error with `expected = 14 ≥ 14` and
`available = 4`, then terminates. (4)-(9) For every payload whose first
action has a truncated length-validated body, the iterator yields it as
one `UnexpectedEof` error and finishes: movement (`0x00` + sub-opcode,
expected 28), instant ability (`0x0F 00`, expected 18), selection
(`0x16`, expected exceeding the available bytes), hotkey (`0x17`,
expected 3), direct ability (`0x1A 19`, expected 14), and
ability-with-selection (`0x1A 00`, expected 3 when the payload ends right
after the sub-opcode). (10) The length-tolerant fixed-size opcodes
`0x1B`, `0x1C`, `0x1D`, `0x19`, `0x1E`, `0x50`, `0x51`, `0x68` and `0x15`
never produce an error item: the first action of such a payload is
yielded `Ok` at every body length, truncated or not. (11)-(12) Opcodes
with no dispatch arm (`0x02`, `0x04`-`0x0B`, `0x0D`, `0x10`, `0x12`,
`0x13`, `0x1F`) never produce an error for any subcommand and body: they
are returned as `Unknown` actions carrying the raw bytes up to the next
plausible action boundary, and the iterator yields them as `Ok` items. -/
theorem c2_error_semantics :
    (∀ (s : ActionIterState) (e : ParserError) (s2 : ActionIterState),
      actionIterNext s = (some (.error e), s2) → (actionIterNext s2).1 = none) ∧
    (∀ (data : List Nat) (off ts fn : Nat), off < data.length →
      (data.getD off 0 = 0 ∨ 15 < data.getD off 0) →
      (actionIterNext ⟨data, off, ⟨ts, fn⟩, false⟩).1 =
        some (.error (.invalidHeader ("Invalid player ID " ++ toString (data.getD off 0) ++
          " at offset " ++ toString off ++ ", expected 1-15")))) ∧
    (actionIterRun 4 (mkActionIter c2TruncatedAbility ⟨2000, 0⟩) =
      [.error (.unexpectedEof 14 4)] ∧ 14 ≤ 14) ∧
    (∀ (p : List Nat) (ts fn : Nat),
      1 ≤ p.getD 0 0 → p.getD 0 0 ≤ 15 → p.getD 1 0 = 0x00 →
      (p.getD 2 0 = 0x0D ∨ p.getD 2 0 = 0x0E ∨ p.getD 2 0 = 0x0F ∨
        p.getD 2 0 = 0x10 ∨ p.getD 2 0 = 0x12) →
      3 ≤ p.length → p.length < 29 →
      actionIterNext ⟨p, 0, ⟨ts, fn⟩, false⟩ =
        (some (.error (.unexpectedEof 28 (p.length - 1))), ⟨p, 0, ⟨ts, fn⟩, true⟩)) ∧
    (∀ (p : List Nat) (ts fn : Nat),
      1 ≤ p.getD 0 0 → p.getD 0 0 ≤ 15 → p.getD 1 0 = 0x0F → p.getD 2 0 = 0x00 →
      3 ≤ p.length → p.length < 19 →
      actionIterNext ⟨p, 0, ⟨ts, fn⟩, false⟩ =
        (some (.error (.unexpectedEof 18 (p.length - 1))), ⟨p, 0, ⟨ts, fn⟩, true⟩)) ∧
    (∀ (p : List Nat) (ts fn : Nat),
      1 ≤ p.getD 0 0 → p.getD 0 0 ≤ 15 → p.getD 1 0 = 0x16 →
      2 ≤ p.length → p.length - 1 < 4 + p.getD 2 0 * 8 →
      ∃ exp, actionIterNext ⟨p, 0, ⟨ts, fn⟩, false⟩ =
        (some (.error (.unexpectedEof exp (p.length - 1))), ⟨p, 0, ⟨ts, fn⟩, true⟩) ∧
        p.length - 1 < exp) ∧
    (∀ (p : List Nat) (ts fn : Nat),
      1 ≤ p.getD 0 0 → p.getD 0 0 ≤ 15 → p.getD 1 0 = 0x17 →
      2 ≤ p.length → p.length < 4 →
      actionIterNext ⟨p, 0, ⟨ts, fn⟩, false⟩ =
        (some (.error (.unexpectedEof 3 (p.length - 1))), ⟨p, 0, ⟨ts, fn⟩, true⟩)) ∧
    (∀ (p : List Nat) (ts fn : Nat),
      1 ≤ p.getD 0 0 → p.getD 0 0 ≤ 15 → p.getD 1 0 = 0x1A → p.getD 2 0 = 0x19 →
      3 ≤ p.length → p.length < 15 →
      actionIterNext ⟨p, 0, ⟨ts, fn⟩, false⟩ =
        (some (.error (.unexpectedEof 14 (p.length - 1))), ⟨p, 0, ⟨ts, fn⟩, true⟩)) ∧
    (∀ (p : List Nat) (ts fn : Nat),
      1 ≤ p.getD 0 0 → p.getD 0 0 ≤ 15 → p.getD 1 0 = 0x1A → p.getD 2 0 = 0x00 →
      p.length = 3 →
      actionIterNext ⟨p, 0, ⟨ts, fn⟩, false⟩ =
        (some (.error (.unexpectedEof 3 2)), ⟨p, 0, ⟨ts, fn⟩, true⟩)) ∧
    (∀ (p : List Nat) (ts fn : Nat),
      1 ≤ p.getD 0 0 → p.getD 0 0 ≤ 15 → 2 ≤ p.length →
      (p.getD 1 0 = 0x1B ∨ p.getD 1 0 = 0x1C ∨ p.getD 1 0 = 0x1D ∨ p.getD 1 0 = 0x19 ∨
        p.getD 1 0 = 0x1E ∨ p.getD 1 0 = 0x50 ∨ p.getD 1 0 = 0x51 ∨ p.getD 1 0 = 0x68 ∨
        p.getD 1 0 = 0x15) →
      ∃ (a : Action) (s2 : ActionIterState),
        actionIterNext ⟨p, 0, ⟨ts, fn⟩, false⟩ = (some (.ok a), s2)) ∧
    (∀ (t : Nat),
      (t = 0x02 ∨ t = 0x04 ∨ t = 0x05 ∨ t = 0x06 ∨ t = 0x07 ∨ t = 0x08 ∨
        t = 0x09 ∨ t = 0x0A ∨ t = 0x0B ∨ t = 0x0D ∨ t = 0x10 ∨ t = 0x12 ∨
        t = 0x13 ∨ t = 0x1F) →
      ∀ (sub : Option Nat) (data : List Nat),
        parseActionType t sub data = .ok (parseUnknownAction t sub data) ∧
        (parseUnknownAction t sub data).1 =
          .unknown t sub (listSlice data 1 (parseUnknownAction t sub data).2)) ∧
    (∀ (p : List Nat) (ts fn : Nat),
      1 ≤ p.getD 0 0 → p.getD 0 0 ≤ 15 → 2 ≤ p.length →
      (p.getD 1 0 = 0x02 ∨ p.getD 1 0 = 0x04 ∨ p.getD 1 0 = 0x05 ∨ p.getD 1 0 = 0x06 ∨
        p.getD 1 0 = 0x07 ∨ p.getD 1 0 = 0x08 ∨ p.getD 1 0 = 0x09 ∨ p.getD 1 0 = 0x0A ∨
        p.getD 1 0 = 0x0B ∨ p.getD 1 0 = 0x0D ∨ p.getD 1 0 = 0x10 ∨ p.getD 1 0 = 0x12 ∨
        p.getD 1 0 = 0x13 ∨ p.getD 1 0 = 0x1F) →
      ∃ s2 : ActionIterState,
        actionIterNext ⟨p, 0, ⟨ts, fn⟩, false⟩ =
          (some (.ok ⟨p.getD 0 0,
            (parseUnknownAction (p.getD 1 0) (p.get? 2) (p.drop 1)).1, ts⟩), s2)) := by
  refine ⟨?_, ?_, ⟨rfl, le_refl 14⟩, ?_, ?_, ?_, ?_, ?_, ?_, ?_, ?_, ?_⟩
  · intro s e s2 h
    rw [actionIterNext_finished (actionIterNext_error_finished h)]
  · intro data off ts fn h1 h2
    have hlt : ¬(off ≥ data.length) := by omega
    simp only [List.getD_eq_getElem?_getD] at h2
    simp only [actionIterNext, parseNext, getD_drop, Nat.add_zero]
    simp [hlt, h2]
  · -- movement truncation
    intro p ts fn hpl hpu hp1 hp2 hlen3 hlen29
    have hpl2 : ¬(p.getD 0 0 = 0 ∨ p.getD 0 0 > 15) := by omega
    have hget2 : p.get? 2 = some (p.getD 2 0) := get?_eq_getD (by omega)
    rcases hp2 with h2 | h2 | h2 | h2 | h2 <;>
    · rw [h2] at hget2
      refine actionIterNext_zero_error (by omega) hpl2 ?_
      rw [hp1, hget2]
      simp only [parseActionType, MovementAction.parseWithSubcommand, List.length_drop]
      simp [show p.length - 1 < 28 from by omega]
  · -- instant ability truncation
    intro p ts fn hpl hpu hp1 hp2 hlen3 hlen19
    have hpl2 : ¬(p.getD 0 0 = 0 ∨ p.getD 0 0 > 15) := by omega
    have hget2 : p.get? 2 = some (p.getD 2 0) := get?_eq_getD (by omega)
    rw [hp2] at hget2
    refine actionIterNext_zero_error (by omega) hpl2 ?_
    rw [hp1, hget2]
    simp only [parseActionType, InstantAbilityAction.parse, List.length_drop]
    simp [show p.length - 1 < 18 from by omega]
  · -- selection truncation
    intro p ts fn hpl hpu hp1 hlen2 htr
    have hpl2 : ¬(p.getD 0 0 = 0 ∨ p.getD 0 0 > 15) := by omega
    by_cases h4 : p.length - 1 < 4
    · refine ⟨4, actionIterNext_zero_error (by omega) hpl2 ?_, by omega⟩
      rw [hp1]
      simp only [parseActionType, SelectionAction.parse, List.length_drop, getD_drop]
      simp only [List.getD_eq_getElem?_getD] at hp1
      simp [hp1, show ¬(p.length - 1 = 0) from by omega, h4]
    · refine ⟨4 + p.getD 2 0 * 8, actionIterNext_zero_error (by omega) hpl2 ?_, htr⟩
      rw [hp1]
      simp only [parseActionType, SelectionAction.parse, List.length_drop, getD_drop]
      simp only [List.getD_eq_getElem?_getD] at hp1 htr
      simp [hp1, show ¬(p.length - 1 = 0) from by omega, h4, htr]
  · -- hotkey truncation
    intro p ts fn hpl hpu hp1 hlen2 hlen4
    have hpl2 : ¬(p.getD 0 0 = 0 ∨ p.getD 0 0 > 15) := by omega
    refine actionIterNext_zero_error (by omega) hpl2 ?_
    rw [hp1]
    simp only [parseActionType, HotkeyAction.parse, List.length_drop]
    simp [show p.length - 1 < 3 from by omega]
  · -- direct ability truncation
    intro p ts fn hpl hpu hp1 hp2 hlen3 hlen15
    have hpl2 : ¬(p.getD 0 0 = 0 ∨ p.getD 0 0 > 15) := by omega
    have hget2 : p.get? 2 = some (p.getD 2 0) := get?_eq_getD (by omega)
    rw [hp2] at hget2
    refine actionIterNext_zero_error (by omega) hpl2 ?_
    rw [hp1, hget2]
    simp only [parseActionType, AbilityAction.parse, List.length_drop]
    simp [show p.length - 1 < 14 from by omega]
  · -- ability-with-selection header truncation
    intro p ts fn hpl hpu hp1 hp2 hlen
    have hpl2 : ¬(p.getD 0 0 = 0 ∨ p.getD 0 0 > 15) := by omega
    have hget2 : p.get? 2 = some (p.getD 2 0) := get?_eq_getD (by omega)
    rw [hp2] at hget2
    refine actionIterNext_zero_error (by omega) hpl2 ?_
    rw [hp1, hget2]
    simp only [parseActionType, AbilityWithSelectionAction.parse, List.length_drop]
    simp [show p.length - 1 = 2 from by omega]
  · -- length-tolerant opcodes never error
    intro p ts fn hpl hpu hlen h9
    have hpl2 : ¬(p.getD 0 0 = 0 ∨ p.getD 0 0 > 15) := by omega
    obtain ⟨⟨a, c⟩, hac⟩ := parseActionType_tolerant (p.getD 1 0) h9 (p.get? 2) (p.drop 1)
    exact ⟨_, _, actionIterNext_zero_ok (by omega) hpl2 hac⟩
  · -- undispatched opcodes fall through to the unknown handler
    intro t ht sub data
    exact ⟨parseActionType_fallback t ht sub data, rfl⟩
  · -- and the iterator yields the resulting Unknown action as Ok
    intro p ts fn hpl hpu hlen h14
    have hpl2 : ¬(p.getD 0 0 = 0 ∨ p.getD 0 0 > 15) := by omega
    have hpa : parseActionType (p.getD 1 0) (p.get? 2) (p.drop 1) =
        .ok ((parseUnknownAction (p.getD 1 0) (p.get? 2) (p.drop 1)).1,
          (parseUnknownAction (p.getD 1 0) (p.get? 2) (p.drop 1)).2) :=
      parseActionType_fallback (p.getD 1 0) h14 (p.get? 2) (p.drop 1)
    exact ⟨_, actionIterNext_zero_ok (by omega) hpl2 hpa⟩

/-- C2 witness: each universally quantified part of the amended statement
applied at a concrete input — a bad player id, the error-then-stop
behavior, one truncated payload per length-validated family, a truncated
tolerant opcode and an undispatched opcode. -/
theorem c2_error_semantics_witness :
    (actionIterNext ⟨[0x00, 0x16], 0, ⟨0, 0⟩, false⟩).1 =
      some (.error (.invalidHeader "Invalid player ID 0 at offset 0, expected 1-15")) ∧
    (actionIterNext ⟨c2TruncatedAbility, 0, ⟨2000, 0⟩, true⟩).1 = none ∧
    actionIterNext ⟨[5, 0x00, 0x0D, 0], 0, ⟨0, 0⟩, false⟩ =
      (some (.error (.unexpectedEof 28 3)), ⟨[5, 0x00, 0x0D, 0], 0, ⟨0, 0⟩, true⟩) ∧
    actionIterNext ⟨[5, 0x0F, 0x00, 0], 0, ⟨0, 0⟩, false⟩ =
      (some (.error (.unexpectedEof 18 3)), ⟨[5, 0x0F, 0x00, 0], 0, ⟨0, 0⟩, true⟩) ∧
    (∃ exp, actionIterNext ⟨[4, 0x16, 2, 5, 0], 0, ⟨0, 0⟩, false⟩ =
      (some (.error (.unexpectedEof exp 4)), ⟨[4, 0x16, 2, 5, 0], 0, ⟨0, 0⟩, true⟩) ∧
      4 < exp) ∧
    actionIterNext ⟨[7, 0x17, 1], 0, ⟨0, 0⟩, false⟩ =
      (some (.error (.unexpectedEof 3 2)), ⟨[7, 0x17, 1], 0, ⟨0, 0⟩, true⟩) ∧
    actionIterNext ⟨c2TruncatedAbility, 0, ⟨2000, 0⟩, false⟩ =
      (some (.error (.unexpectedEof 14 4)), ⟨c2TruncatedAbility, 0, ⟨2000, 0⟩, true⟩) ∧
    actionIterNext ⟨[3, 0x1A, 0x00], 0, ⟨0, 0⟩, false⟩ =
      (some (.error (.unexpectedEof 3 2)), ⟨[3, 0x1A, 0x00], 0, ⟨0, 0⟩, true⟩) ∧
    (∃ (a : Action) (s2 : ActionIterState),
      actionIterNext ⟨c2TruncatedItem, 0, ⟨0, 0⟩, false⟩ = (some (.ok a), s2)) ∧
    (parseActionType 0x02 (some 0x07) [0x02, 0x07, 0x01, 0x03, 0x16, 0x01] =
      .ok (parseUnknownAction 0x02 (some 0x07) [0x02, 0x07, 0x01, 0x03, 0x16, 0x01])) ∧
    (∃ s2 : ActionIterState, actionIterNext ⟨[3, 0x02, 0x07], 0, ⟨0, 0⟩, false⟩ =
      (some (.ok ⟨3, (parseUnknownAction 0x02 (some 0x07) [0x02, 0x07]).1, 0⟩), s2)) :=
  ⟨c2_error_semantics.2.1 [0x00, 0x16] 0 0 0 (by decide) (Or.inl (by decide)),
    c2_error_semantics.1 ⟨c2TruncatedAbility, 0, ⟨2000, 0⟩, false⟩ (.unexpectedEof 14 4)
      ⟨c2TruncatedAbility, 0, ⟨2000, 0⟩, true⟩ (by rfl),
    c2_error_semantics.2.2.2.1 [5, 0x00, 0x0D, 0] 0 0 (by decide) (by decide) (by decide)
      (Or.inl (by decide)) (by decide) (by decide),
    c2_error_semantics.2.2.2.2.1 [5, 0x0F, 0x00, 0] 0 0 (by decide) (by decide) (by decide)
      (by decide) (by decide) (by decide),
    c2_error_semantics.2.2.2.2.2.1 [4, 0x16, 2, 5, 0] 0 0 (by decide) (by decide)
      (by decide) (by decide) (by decide),
    c2_error_semantics.2.2.2.2.2.2.1 [7, 0x17, 1] 0 0 (by decide) (by decide) (by decide)
      (by decide) (by decide),
    c2_error_semantics.2.2.2.2.2.2.2.1 c2TruncatedAbility 2000 0 (by decide) (by decide)
      (by decide) (by decide) (by decide) (by decide),
    c2_error_semantics.2.2.2.2.2.2.2.2.1 [3, 0x1A, 0x00] 0 0 (by decide) (by decide)
      (by decide) (by decide) (by decide),
    c2_error_semantics.2.2.2.2.2.2.2.2.2.1 c2TruncatedItem 0 0 (by decide) (by decide)
      (by decide) (Or.inl (by decide)),
    (c2_error_semantics.2.2.2.2.2.2.2.2.2.2.1 0x02 (Or.inl rfl) (some 0x07)
      [0x02, 0x07, 0x01, 0x03, 0x16, 0x01]).1,
    c2_error_semantics.2.2.2.2.2.2.2.2.2.2.2 [3, 0x02, 0x07] 0 0 (by decide) (by decide)
      (by decide) (Or.inl (by decide))⟩

/-- C3 counterexample: on the 29-byte ground-movement payload of spec
scenario 2 the iterator consumes 29 bytes for the first action — the
player-id byte plus the 28-byte movement record — not 28. -/
theorem c3_counterexample :
    (actionIterNext (mkActionIter c3MovementPayload ⟨0, 0⟩)).2.offset = 29 ∧
    (actionIterNext (mkActionIter c3MovementPayload ⟨0, 0⟩)).2.offset ≠ 28 ∧
    actionIterRun 2 (mkActionIter c3MovementPayload ⟨0, 0⟩) =
      [.ok ⟨5, .movement ⟨.move, 0, none, 0xC5B00000, 0x45600000,
        [0, 0, 0, 0, 0, 0, 0, 0]⟩, 0⟩] := by
  exact ⟨rfl, by decide, rfl⟩

/-- C3 amended: each dispatch rule consumes one player-id byte plus the
rule's body size; in particular, for every frame payload whose first action
is a movement command (opcode `0x00` with sub-opcode `0x0D`, `0x0E`, `0x0F`,
`0x10` or `0x12`) and which holds the full 29 bytes, the action iterator
consumes exactly 29 bytes in total — the player-id byte plus the 28-byte
movement record — before the next action starts. -/
theorem c3_movement_consumes_29 :
    ∀ (p : List Nat) (ts fn : Nat),
      1 ≤ p.getD 0 0 → p.getD 0 0 ≤ 15 → p.getD 1 0 = 0x00 →
      (p.getD 2 0 = 0x0D ∨ p.getD 2 0 = 0x0E ∨ p.getD 2 0 = 0x0F ∨
        p.getD 2 0 = 0x10 ∨ p.getD 2 0 = 0x12) →
      29 ≤ p.length →
      ∃ m : MovementAction,
        actionIterNext ⟨p, 0, ⟨ts, fn⟩, false⟩ =
          (some (.ok ⟨p.getD 0 0, .movement m, ts⟩), ⟨p, 29, ⟨ts, fn⟩, false⟩) := by
  intro p ts fn hpl hpu hp1 hp2 hlen
  have hlt : ¬((0 : Nat) ≥ p.length) := by omega
  have hlt2 : ¬(p.length < 2) := by omega
  have hplayer : ¬(p.getD 0 0 = 0 ∨ 15 < p.getD 0 0) := by omega
  have hget2 : p.get? 2 = some (p.getD 2 0) := get?_eq_getD (by omega)
  have hl28 : ¬(p.length - 1 < 28) := by omega
  rcases hp2 with h2 | h2 | h2 | h2 | h2 <;>
  · rw [h2] at hget2
    simp only [List.get?_eq_getElem?] at hget2
    simp only [List.getD_eq_getElem?_getD] at hp1 hplayer h2
    simp only [actionIterNext, parseNext, List.drop_zero, parseActionType,
      MovementAction.parseWithSubcommand, getD_drop, List.length_drop]
    simp [hlt, hlt2, hplayer, hget2, hl28, hp1, h2]


/-- C3 witness: the amended statement applied to the concrete 29-byte
ground-movement payload of spec scenario 2. -/
theorem c3_movement_consumes_29_witness :
    ∃ m : MovementAction,
      actionIterNext ⟨c3MovementPayload, 0, ⟨0, 0⟩, false⟩ =
        (some (.ok ⟨c3MovementPayload.getD 0 0, .movement m, 0⟩),
          ⟨c3MovementPayload, 29, ⟨0, 0⟩, false⟩) :=
  c3_movement_consumes_29 c3MovementPayload 0 0 (by decide) (by decide) (by decide)
    (Or.inl (by decide)) (by decide)

/-- C4: a position holding a marker byte `0x1E`/`0x1F` is accepted as a
frame start exactly when at least 5 bytes remain and the two little-endian
`u16` values after the marker satisfy `delta < 5000` and `hint < 8000`; a
candidate marker failing the validation makes the skip loop advance by
exactly one byte (neither yielding nor erroring). -/
theorem c4_timeframe_validation :
    (∀ (data : List Nat) (off : Nat),
      (data.getD off 0 = 0x1E ∨ data.getD off 0 = 0x1F) →
      (isValidTimeframeAt data off = true ↔
        (off + 5 ≤ data.length ∧
          u16le (data.getD (off + 1) 0) (data.getD (off + 2) 0) < 5000 ∧
          u16le (data.getD (off + 3) 0) (data.getD (off + 4) 0) < 8000))) ∧
    (∀ (fuel : Nat) (s : TimeFrameIterState) (bytesScanned : Nat),
      s.offset < s.data.length → bytesScanned ≤ 10000 →
      (s.data.getD s.offset 0 = 0x1E ∨ s.data.getD s.offset 0 = 0x1F) →
      isValidTimeframeAt s.data s.offset = false →
      skipNonTimeframeRecords (fuel + 1) s bytesScanned =
        skipNonTimeframeRecords fuel { s with offset := s.offset + 1 } (bytesScanned + 1)) := by
  constructor
  · intro data off h
    simp only [isValidTimeframeAt]
    by_cases h1 : off + 5 > data.length
    · simp [h1]
    · have h1le : off + 5 ≤ data.length := by omega
      have hm : ¬(data.getD off 0 ≠ 30 ∧ data.getD off 0 ≠ 31) := by
        rcases h with h | h <;> simp only [List.getD_eq_getElem?_getD] at h <;> simp [h]
      simp [h1, hm, decide_eq_true_iff, h1le]
      intro _ _
      simp only [List.getD_eq_getElem?_getD] at h
      exact h
  · intro fuel s bytesScanned h1 h2 h3 h4
    rcases h3 with hb | hb <;>
    · simp only [List.getD_eq_getElem?_getD] at hb
      simp [skipNonTimeframeRecords, hb, h4,
        show ¬(s.offset ≥ s.data.length) from by omega,
        show ¬(bytesScanned > 10000) from by omega]

/-- C4 witness: the validation applied at a concrete accepted marker, and
the one-byte skip applied at a concrete rejected marker (delta 5000). -/
theorem c4_timeframe_validation_witness :
    isValidTimeframeAt [0x1F, 0, 0, 0, 0] 0 = true ∧
    skipNonTimeframeRecords 1 ⟨[0x1F, 0x88, 0x13, 0, 0, 0], 0, 0, 0, false⟩ 0 =
      skipNonTimeframeRecords 0 ⟨[0x1F, 0x88, 0x13, 0, 0, 0], 1, 0, 0, false⟩ 1 :=
  ⟨(c4_timeframe_validation.1 [0x1F, 0, 0, 0, 0] 0 (Or.inr (by decide))).mpr (by decide),
    c4_timeframe_validation.2 0 ⟨[0x1F, 0x88, 0x13, 0, 0, 0], 0, 0, 0, false⟩ 0
      (by decide) (by decide) (Or.inr (by decide)) (by decide)⟩


/-- C5: every frame parsed at a marker position yields as payload exactly
the bytes from offset +5 up to (excluding) the first later occurrence of a
byte in `{0x1E, 0x1F, 0x22, 0x20, 0x17}` (or the end of the buffer), i.e.
the marker-free prefix of the bytes after the 5-byte header; the length
hint at offsets +3..+5 plays no part in the payload boundary, which depends
only on the bytes from +5 on. -/
theorem c5_payload_boundary :
    (∀ s : TimeFrameIterState,
      5 ≤ (s.data.drop s.offset).length →
      ((s.data.drop s.offset).getD 0 0 = 0x1E ∨ (s.data.drop s.offset).getD 0 0 = 0x1F) →
      ∃ f s2, parseTimeframe s = .ok (f, s2) ∧
        f.action_data =
          ((s.data.drop s.offset).drop 5).takeWhile (fun b => !isBoundaryByte b) ∧
        s2.offset = s.offset + 5 + f.action_data.length) ∧
    (∀ (s t : TimeFrameIterState) (f g : TimeFrame) (s2 t2 : TimeFrameIterState),
      5 ≤ (s.data.drop s.offset).length →
      ((s.data.drop s.offset).getD 0 0 = 0x1E ∨ (s.data.drop s.offset).getD 0 0 = 0x1F) →
      5 ≤ (t.data.drop t.offset).length →
      ((t.data.drop t.offset).getD 0 0 = 0x1E ∨ (t.data.drop t.offset).getD 0 0 = 0x1F) →
      (s.data.drop s.offset).drop 5 = (t.data.drop t.offset).drop 5 →
      parseTimeframe s = .ok (f, s2) → parseTimeframe t = .ok (g, t2) →
      f.action_data = g.action_data) := by
  have main : ∀ s : TimeFrameIterState,
      5 ≤ (s.data.drop s.offset).length →
      ((s.data.drop s.offset).getD 0 0 = 0x1E ∨ (s.data.drop s.offset).getD 0 0 = 0x1F) →
      ∃ f s2, parseTimeframe s = .ok (f, s2) ∧
        f.action_data =
          ((s.data.drop s.offset).drop 5).takeWhile (fun b => !isBoundaryByte b) ∧
        s2.offset = s.offset + 5 + f.action_data.length := by
    intro s h5 hm
    have h5' : ¬((s.data.drop s.offset).length < 5) := by omega
    have hmark : ¬((s.data.drop s.offset).getD 0 0 ≠ 30 ∧ (s.data.drop s.offset).getD 0 0 ≠ 31) := by
      intro hcon
      rcases hm with h | h
      · exact hcon.1 h
      · exact hcon.2 h
    have hr1 : read_u16_le (s.data.drop s.offset) 1 =
        .ok (u16le ((s.data.drop s.offset).getD 1 0) ((s.data.drop s.offset).getD 2 0)) := by
      unfold read_u16_le
      rw [if_neg (by omega)]
    have hr3 : read_u16_le (s.data.drop s.offset) 3 =
        .ok (u16le ((s.data.drop s.offset).getD 3 0) ((s.data.drop s.offset).getD 4 0)) := by
      unfold read_u16_le
      rw [if_neg (by omega)]
    have hbnd := find_action_boundary_eq
      (show (5 : Nat) ≤ (s.data.drop s.offset).length by omega)
    have ha : (if find_action_boundary (s.data.drop s.offset) 5 > 5 then
        listSlice (s.data.drop s.offset) 5 (find_action_boundary (s.data.drop s.offset) 5)
        else []) =
        ((s.data.drop s.offset).drop 5).takeWhile (fun b => !isBoundaryByte b) := by
      rw [hbnd]
      by_cases hK : (((s.data.drop s.offset).drop 5).takeWhile
          (fun b => !isBoundaryByte b)).length = 0
      · rw [List.length_eq_zero] at hK
        rw [hK]
        simp
      · rw [if_pos (by omega)]
        simp only [listSlice, Nat.add_sub_cancel_left]
        exact take_length_takeWhile _ _
    simp only [parseTimeframe]
    rw [if_neg h5', if_neg hmark, hr1, hr3]
    refine ⟨_, _, rfl, ha, ?_⟩
    dsimp only
    rw [ha, hbnd]
    omega
  refine ⟨main, ?_⟩
  intro s t f g s2 t2 hs5 hsm ht5 htm hsuffix hps hpt
  obtain ⟨f2, s3, hps2, hfa, _⟩ := main s hs5 hsm
  obtain ⟨g2, t3, hpt2, hga, _⟩ := main t ht5 htm
  rw [hps] at hps2
  rw [hpt] at hpt2
  have hf : f = f2 := by
    injection hps2 with h
    exact congrArg Prod.fst h
  have hg : g = g2 := by
    injection hpt2 with h
    exact congrArg Prod.fst h
  rw [hf, hg, hfa, hga, hsuffix]

/-- C5 witness: the payload-boundary statement applied to a concrete frame
`1F 02 00 63 00 09 09 22` whose length hint (0x63 = 99) is far larger than
the actual 2-byte payload `09 09` ending at the `0x22` marker, and the
hint-irrelevance statement applied to the same frame paired with one whose
hint bytes are `00 00` instead. -/
theorem c5_payload_boundary_witness :
    (∃ f s2,
      parseTimeframe (mkTimeFrameIter [0x1F, 2, 0, 0x63, 0, 9, 9, 0x22] 0) = .ok (f, s2) ∧
      f.action_data =
        (((mkTimeFrameIter [0x1F, 2, 0, 0x63, 0, 9, 9, 0x22] 0).data.drop
          (mkTimeFrameIter [0x1F, 2, 0, 0x63, 0, 9, 9, 0x22] 0).offset).drop 5).takeWhile
            (fun b => !isBoundaryByte b) ∧
      s2.offset = (mkTimeFrameIter [0x1F, 2, 0, 0x63, 0, 9, 9, 0x22] 0).offset + 5 +
        f.action_data.length) ∧
    parseTimeframe (mkTimeFrameIter [0x1F, 2, 0, 0x63, 0, 9, 9, 0x22] 0) =
      .ok (⟨2, [9, 9], 2⟩, ⟨[0x1F, 2, 0, 0x63, 0, 9, 9, 0x22], 7, 2, 0, false⟩) ∧
    (TimeFrame.mk 2 [9, 9] 2).action_data = (TimeFrame.mk 2 [9, 9] 2).action_data :=
  ⟨c5_payload_boundary.1 (mkTimeFrameIter [0x1F, 2, 0, 0x63, 0, 9, 9, 0x22] 0)
      (by decide) (Or.inr (by decide)),
    rfl,
    c5_payload_boundary.2 (mkTimeFrameIter [0x1F, 2, 0, 0x63, 0, 9, 9, 0x22] 0)
      (mkTimeFrameIter [0x1F, 2, 0, 0, 0, 9, 9, 0x22] 0)
      ⟨2, [9, 9], 2⟩ ⟨2, [9, 9], 2⟩
      ⟨[0x1F, 2, 0, 0x63, 0, 9, 9, 0x22], 7, 2, 0, false⟩
      ⟨[0x1F, 2, 0, 0, 0, 9, 9, 0x22], 7, 2, 0, false⟩
      (by decide) (Or.inr (by decide)) (by decide) (Or.inr (by decide))
      (by decide) (by rfl) (by rfl)⟩

/-- C6: in every run of the time-frame iterator, the `n`-th yielded frame
carries as `accumulated_ms` the saturating-add fold of the `delta_ms`
values of the frames yielded up to and including it; accumulated time is
therefore monotonically non-decreasing across the yielded sequence; and a
frame with `delta_ms = 0` and an empty payload is still yielded, leaving
the accumulated time unchanged (concretely on `c6TwoFrames`). -/
theorem c6_accumulated_time :
    (∀ (fuel : Nat) (data : List Nat) (start n : Nat) (f : TimeFrame),
      (timeFrameRun fuel (mkTimeFrameIter data start)).get? n = some (.ok f) →
      f.accumulated_time_ms =
        List.foldl satAdd32 0
          (okDeltas ((timeFrameRun fuel (mkTimeFrameIter data start)).take (n + 1)))) ∧
    (∀ (fuel : Nat) (data : List Nat) (start m n : Nat) (fm fn : TimeFrame), m ≤ n →
      (timeFrameRun fuel (mkTimeFrameIter data start)).get? m = some (.ok fm) →
      (timeFrameRun fuel (mkTimeFrameIter data start)).get? n = some (.ok fn) →
      fm.accumulated_time_ms ≤ fn.accumulated_time_ms) ∧
    timeFrameRun 3 (mkTimeFrameIter c6TwoFrames 0) =
      [.ok ⟨100, [], 100⟩, .ok ⟨0, [], 100⟩] := by
  refine ⟨?_, ?_, rfl⟩
  · intro fuel data start n f h
    exact timeFrameRun_acc fuel (mkTimeFrameIter data start) n f h
  · intro fuel data start m n fm fn hmn hm hn
    exact timeFrameRun_mono hmn hm hn

/-- C6 witness: both universal statements applied to the concrete two-frame
stream `c6TwoFrames` (deltas 100 then 0): the second frame keeps the
accumulated value 100 of the first. -/
theorem c6_accumulated_time_witness :
    (TimeFrame.mk 0 [] 100).accumulated_time_ms =
      List.foldl satAdd32 0
        (okDeltas ((timeFrameRun 3 (mkTimeFrameIter c6TwoFrames 0)).take 2)) ∧
    (TimeFrame.mk 100 [] 100).accumulated_time_ms ≤
      (TimeFrame.mk 0 [] 100).accumulated_time_ms :=
  ⟨c6_accumulated_time.1 3 c6TwoFrames 0 1 ⟨0, [], 100⟩ (by rfl),
    c6_accumulated_time.2.1 3 c6TwoFrames 0 0 1 ⟨100, [], 100⟩ ⟨0, [], 100⟩
      (by omega) (by rfl) (by rfl)⟩

end W3G
